import Mathlib

/-!
# Streaming subscriptions

A shallow embedding of `src/streaming/streaming_subscriptions.cpp`: the symbol
encoder, the symbol+field subscription classes with their parameter
serialisation, and the C ABI create function that wraps a built object in a
tagged proxy.

Conventions of the embedding:

* `std::string` is `String`, read through its list of characters (`String.data`);
  one `Char` stands for one C++ `char`.
* `std::set<T>` is the list of its elements in iteration (ascending) order.
* `std::map<string,string>` is the list of its entries in ascending key order.
* a C++ exception (or the error code it is converted to at the ABI) is a value
  of `Exc`; functions that can throw return `Except Exc _`.
* a pointer argument that may be null is an `Option`; an array argument together
  with its element count is a `List` (the count is its length).
* declarations that live in the headers (`_streaming.h`, `util`) and not in
  this source file are collected in `Header` or modelled under a doc comment
  that says so.
-/

namespace tdma

/-! ## Characters and strings -/

/-- The C library `toupper` in the "C" locale: the letters `a`..`z` are mapped to
`A`..`Z`, every other character is returned unchanged. -/
def toupper (c : Char) : Char :=
  if 97 ≤ c.toNat ∧ c.toNat ≤ 122 then Char.ofNat (c.toNat - 32) else c

/-- The loop `for(auto& s : symbol) s = toupper(s);` -/
def string_toupper (symbol : String) : String :=
  String.mk (symbol.data.map toupper)

/-- The static table `R` of `encode_symbol`, with `R.find`: `none` is `R.end()`. -/
def R : Char → Option String
  | '.' => some "/"
  | '-' => some "p"
  | '+' => some "/WS/"
  | _ => none

/-- The function `StreamingSubscriptionImpl::encode_symbol`. The two subscript reads
`symbol[s-2]` and `symbol[s-1]` carry the proof that they are in range. -/
def encode_symbol (symbol : String) : String :=
  let s := symbol.data.length
  if h : s < 2 then
    symbol
  else
    let upper : String := string_toupper symbol
    have hs : s = upper.data.length := by simp [upper, s, string_toupper]
    let c2 := upper.data.get ⟨s - 2, by omega⟩
    match R c2 with
    | some r =>
      String.mk (upper.data.take (s - 2)) ++ r
        ++ String.singleton (upper.data.get ⟨s - 1, by omega⟩)
    | none =>
      if upper.data.get ⟨s - 1, by omega⟩ = '+' then
        String.mk upper.data.dropLast ++ "/WS"
      else
        upper

/-- The function `StreamingSubscriptionImpl::encode_symbol` once more, with every
access through a position or an iterator checked: `none` stands for a read of
`symbol[i]` with `i` out of range, for `symbol.end()-2` on a string shorter than
two characters, or for `pop_back` on an empty string. -/
def encode_symbol_checked (symbol : String) : Option String :=
  let s := symbol.data.length
  if s < 2 then
    some symbol
  else
    let upper : String := string_toupper symbol
    match upper.data[s - 2]? with
    | none => none
    | some c2 =>
      match R c2 with
      | some r =>
        if upper.data.length < 2 then none
        else
          match upper.data[s - 1]? with
          | none => none
          | some c1 => some (String.mk (upper.data.take (s - 2)) ++ r ++ String.singleton c1)
      | none =>
        match upper.data[s - 1]? with
        | none => none
        | some c1 =>
          if c1 = '+' then
            if upper.data.isEmpty then none
            else some (String.mk upper.data.dropLast ++ "/WS")
          else
            some upper

/-- The function `std::to_string(unsigned int)`: the decimal digits of the value. -/
def to_string (n : Nat) : String :=
  String.mk (Nat.toDigits 10 n)

/-- The conversion `static_cast<unsigned int>(f)` of a 32-bit field code. -/
def to_unsigned (f : Int) : Nat :=
  (f % 4294967296).toNat

/-- The number that a string of decimal digits denotes, most significant digit
first. It is the reading against which the output of `to_string` is checked. -/
def decimal_value (s : List Char) : Nat :=
  s.foldl (fun acc ch => 10 * acc + (ch.toNat - 48)) 0

/-- Modelled from the spec: `util::join(v, delim)` is declared outside this source
file; the spec says the entries are "comma-joined", that is, written in order
with the delimiter between consecutive entries and none before the first or
after the last. -/
def util_join : List String → Char → String
  | [], _ => ""
  | [s], _ => s
  | s :: t, delim => s ++ String.singleton delim ++ util_join t delim

/-! ## Ordered containers -/

/-- Lexicographic comparison of character sequences by character code, the
order of `std::string::operator<`. -/
def chars_lt : List Char → List Char → Bool
  | [], [] => false
  | [], _ :: _ => true
  | _ :: _, [] => false
  | a :: as, b :: bs =>
    if a.toNat < b.toNat then true
    else if b.toNat < a.toNat then false
    else chars_lt as bs

/-- The comparator `std::less<std::string>` of a `std::set<string>`. -/
def string_lt (a b : String) : Bool :=
  chars_lt a.data b.data

/-- The comparator `std::less` on field codes: an enumeration value is compared by its integer
value. -/
def int_lt (a b : Int) : Bool :=
  decide (a < b)

/-- The member `std::set::insert` on the ascending element list: the element is placed
before the first larger one, and dropped when an equivalent element (neither
smaller nor larger) is already present. -/
def set_insert {α : Type} (lt : α → α → Bool) (x : α) : List α → List α
  | [] => [x]
  | y :: ys =>
    if lt x y then x :: y :: ys
    else if lt y x then y :: set_insert lt x ys
    else y :: ys

/-- Modelled from the spec: `util::buffers_to_set<T>(buffer, n)` is declared
outside this source file; per the spec the symbol and field inputs become sets
with unique elements. The `n` entries of the buffer are inserted one by one into
an empty `std::set`. -/
def buffers_to_set {α : Type} (lt : α → α → Bool) (buffer : List α) : List α :=
  buffer.foldl (fun s x => set_insert lt x s) []

/-- Modelled from the spec: `util::toupper(const set<string>&)` is declared outside
this source file. The spec's testable property has `get_symbols()` return the
"normalized-uppercased form of the input symbols, as a set", without duplicates
for raw symbols that differ by letter case only. The function is taken by its
name: every string of the set is uppercased and inserted into a new set. It does
not apply `encode_symbol`, a member of another class, although the spec's data
model calls the stored symbols encoded; what holds for every function in its
place is stated with `ctor_with`. -/
def util_toupper (symbols : List String) : List String :=
  buffers_to_set string_lt (symbols.map string_toupper)

/-- A `std::map<string,string>` as its entries in ascending key order. -/
abbrev ParamMap := List (String × String)

/-- The member `std::map::insert`: an entry whose key is already present is not inserted. -/
def map_insert (e : String × String) : ParamMap → ParamMap
  | [] => [e]
  | f :: m =>
    if string_lt e.1 f.1 then e :: f :: m
    else if string_lt f.1 e.1 then f :: map_insert e m
    else f :: m

/-- Construction of a `std::map` from a brace-enclosed list of entries. -/
def map_of (entries : List (String × String)) : ParamMap :=
  entries.foldl (fun m e => map_insert e m) []

/-- Lookup of a key in a parameter map. -/
def ParamMap.find (m : ParamMap) (key : String) : Option String :=
  (List.find? (fun e => e.1 == key) m).map Prod.snd

/-! ## Errors and header declarations -/

/-- What an operation reports when it fails. `ValueException` and `TypeException`
are the exception classes named in the source, with the message given there;
`NullPointer` is the precondition error for a null required argument, with the
argument name; `AllocationError` is the separately reported failure to allocate
memory. -/
inductive Exc where
  | ValueException (msg : String)
  | TypeException (msg : String)
  | NullPointer (name : String)
  | AllocationError
  deriving DecidableEq, Repr

/-- Modelled from the spec: the macros `CHECK_PTR` and `CHECK_PTR_KILL_PROXY` are
declared outside this source file; per the spec a missing (null) required argument
is a precondition error, reported immediately. The error records the argument name
passed to the macro. -/
def null_pointer_error (name : String) : Exc :=
  .NullPointer name

/-- The members of `StreamerServiceType` used by this source file. -/
inductive StreamerServiceType where
  | QUOTE | OPTION | LEVELONE_FUTURES | LEVELONE_FOREX | LEVELONE_FUTURES_OPTIONS
  | NEWS_HEADLINE | CHART_EQUITY | CHART_FUTURES | CHART_OPTIONS
  | TIMESALE_EQUITY | TIMESALE_FUTURES | TIMESALE_OPTIONS
  | ACTIVES_NASDAQ | ACTIVES_NYSE | ACTIVES_OTCBB | ACTIVES_OPTIONS
  deriving DecidableEq, Repr

/-- The constants and predicates this source file takes from its headers. Their
values are not part of the file, so every definition that reads one takes the
header as a parameter. Next to the limits, the validity predicates and the
`TYPE_ID_SUB_*` identifiers these are: the `TYPE_ID_LOW` / `TYPE_ID_HIGH` members of
`StreamingSubscriptionImpl` (declared with the class), the `to_string` overloads
for `DurationType` and `VenueType`, the integer value of each `StreamerServiceType`
member, and the size `to_new_char_buffer` reports for the buffer it fills. -/
structure Header where
  SUBSCRIPTION_MAX_SYMBOLS : Nat
  SUBSCRIPTION_MAX_FIELDS : Nat
  QuotesSubscriptionField_is_valid : Int → Bool
  OptionsSubscriptionField_is_valid : Int → Bool
  LevelOneFuturesSubscriptionField_is_valid : Int → Bool
  LevelOneForexSubscriptionField_is_valid : Int → Bool
  LevelOneFuturesOptionsSubscriptionField_is_valid : Int → Bool
  NewsHeadlineSubscriptionField_is_valid : Int → Bool
  ChartEquitySubscriptionField_is_valid : Int → Bool
  ChartSubscriptionField_is_valid : Int → Bool
  TimesaleSubscriptionField_is_valid : Int → Bool
  DurationType_is_valid : Int → Bool
  VenueType_is_valid : Int → Bool
  TYPE_ID_SUB_QUOTES : Int
  TYPE_ID_SUB_OPTIONS : Int
  TYPE_ID_SUB_LEVEL_ONE_FUTURES : Int
  TYPE_ID_SUB_LEVEL_ONE_FOREX : Int
  TYPE_ID_SUB_LEVEL_ONE_FUTURES_OPTIONS : Int
  TYPE_ID_SUB_NEWS_HEADLINE : Int
  TYPE_ID_SUB_CHART_EQUITY : Int
  TYPE_ID_SUB_CHART_FOREX : Int
  TYPE_ID_SUB_CHART_FUTURES : Int
  TYPE_ID_SUB_CHART_OPTIONS : Int
  TYPE_ID_SUB_TIMESALE_EQUITY : Int
  TYPE_ID_SUB_TIMESALE_FOREX : Int
  TYPE_ID_SUB_TIMESALE_FUTURES : Int
  TYPE_ID_SUB_TIMESALE_OPTIONS : Int
  TYPE_ID_SUB_ACTIVES_NASDAQ : Int
  TYPE_ID_SUB_ACTIVES_NYSE : Int
  TYPE_ID_SUB_ACTIVES_OTCBB : Int
  TYPE_ID_SUB_ACTIVES_OPTION : Int
  StreamingSubscriptionImpl_TYPE_ID_LOW : Int
  StreamingSubscriptionImpl_TYPE_ID_HIGH : Int
  DurationType_to_string : Int → String
  VenueType_to_string : Int → String
  StreamerServiceType_to_int : StreamerServiceType → Int
  to_new_char_buffer_size : String → Nat

/-! ## The subscription classes -/

/-- The data members of `StreamingSubscriptionImpl`. -/
structure StreamingSubscriptionImpl where
  _service : StreamerServiceType
  _command : String
  _parameters : ParamMap
  deriving DecidableEq, Repr

/-- The member template `SubscriptionBySymbolBaseImpl::build_paramaters`. -/
def build_paramaters (symbols : List String) (fields : List Int) : Except Exc ParamMap :=
  if symbols.isEmpty then
    .error (.ValueException "no symbols")
  else if fields.isEmpty then
    .error (.ValueException "no fields")
  else
    let symbols_enc := symbols.map encode_symbol
    let fields_str := fields.map (fun f => to_string (to_unsigned f))
    .ok (map_of [("fields", util_join fields_str ','), ("keys", util_join symbols_enc ',')])

/-- The data members of `SubscriptionBySymbolBaseImpl`. -/
structure SubscriptionBySymbolBaseImpl extends StreamingSubscriptionImpl where
  _symbols : List String
  deriving DecidableEq, Repr

/-- The constructor of `SubscriptionBySymbolBaseImpl`: the base is initialised
with the built parameters, `_symbols` with `util::toupper(symbols)`. -/
def SubscriptionBySymbolBaseImpl.ctor (service : StreamerServiceType) (command : String)
    (symbols : List String) (fields : List Int) : Except Exc SubscriptionBySymbolBaseImpl :=
  match build_paramaters symbols fields with
  | .error e => .error e
  | .ok parameters =>
    .ok { _service := service, _command := command, _parameters := parameters,
          _symbols := util_toupper symbols }

/-- The member `SubscriptionBySymbolBaseImpl::get_symbols`. -/
def SubscriptionBySymbolBaseImpl.get_symbols (self : SubscriptionBySymbolBaseImpl) :
    List String :=
  self._symbols

/-- The twelve concrete classes that `create_symbol_field_subscription` is
instantiated with. -/
inductive SymbolFieldImplTy where
  | QuotesSubscriptionImpl
  | OptionsSubscriptionImpl
  | LevelOneFuturesSubscriptionImpl
  | LevelOneForexSubscriptionImpl
  | LevelOneFuturesOptionsSubscriptionImpl
  | NewsHeadlineSubscriptionImpl
  | ChartEquitySubscriptionImpl
  | ChartFuturesSubscriptionImpl
  | ChartOptionsSubscriptionImpl
  | TimesaleEquitySubscriptionImpl
  | TimesaleFuturesSubscriptionImpl
  | TimesaleOptionsSubscriptionImpl
  deriving DecidableEq, Repr

/-- The service each class passes to its base constructor. -/
def SymbolFieldImplTy.service : SymbolFieldImplTy → StreamerServiceType
  | .QuotesSubscriptionImpl => .QUOTE
  | .OptionsSubscriptionImpl => .OPTION
  | .LevelOneFuturesSubscriptionImpl => .LEVELONE_FUTURES
  | .LevelOneForexSubscriptionImpl => .LEVELONE_FOREX
  | .LevelOneFuturesOptionsSubscriptionImpl => .LEVELONE_FUTURES_OPTIONS
  | .NewsHeadlineSubscriptionImpl => .NEWS_HEADLINE
  | .ChartEquitySubscriptionImpl => .CHART_EQUITY
  | .ChartFuturesSubscriptionImpl => .CHART_FUTURES
  | .ChartOptionsSubscriptionImpl => .CHART_OPTIONS
  | .TimesaleEquitySubscriptionImpl => .TIMESALE_EQUITY
  | .TimesaleFuturesSubscriptionImpl => .TIMESALE_FUTURES
  | .TimesaleOptionsSubscriptionImpl => .TIMESALE_OPTIONS

/-- The static member `ImplTy::is_valid_field`, as assigned at the end of
namespace `tdma`; the chart futures/options and the timesale classes inherit the
member of their base class. -/
def SymbolFieldImplTy.is_valid_field (H : Header) : SymbolFieldImplTy → Int → Bool
  | .QuotesSubscriptionImpl => H.QuotesSubscriptionField_is_valid
  | .OptionsSubscriptionImpl => H.OptionsSubscriptionField_is_valid
  | .LevelOneFuturesSubscriptionImpl => H.LevelOneFuturesSubscriptionField_is_valid
  | .LevelOneForexSubscriptionImpl => H.LevelOneForexSubscriptionField_is_valid
  | .LevelOneFuturesOptionsSubscriptionImpl =>
    H.LevelOneFuturesOptionsSubscriptionField_is_valid
  | .NewsHeadlineSubscriptionImpl => H.NewsHeadlineSubscriptionField_is_valid
  | .ChartEquitySubscriptionImpl => H.ChartEquitySubscriptionField_is_valid
  | .ChartFuturesSubscriptionImpl => H.ChartSubscriptionField_is_valid
  | .ChartOptionsSubscriptionImpl => H.ChartSubscriptionField_is_valid
  | .TimesaleEquitySubscriptionImpl => H.TimesaleSubscriptionField_is_valid
  | .TimesaleFuturesSubscriptionImpl => H.TimesaleSubscriptionField_is_valid
  | .TimesaleOptionsSubscriptionImpl => H.TimesaleSubscriptionField_is_valid

/-- The static member `ImplTy::TYPE_ID_LOW` of each concrete class (equal to its
`TYPE_ID_HIGH`). -/
def SymbolFieldImplTy.TYPE_ID_LOW (H : Header) : SymbolFieldImplTy → Int
  | .QuotesSubscriptionImpl => H.TYPE_ID_SUB_QUOTES
  | .OptionsSubscriptionImpl => H.TYPE_ID_SUB_OPTIONS
  | .LevelOneFuturesSubscriptionImpl => H.TYPE_ID_SUB_LEVEL_ONE_FUTURES
  | .LevelOneForexSubscriptionImpl => H.TYPE_ID_SUB_LEVEL_ONE_FOREX
  | .LevelOneFuturesOptionsSubscriptionImpl => H.TYPE_ID_SUB_LEVEL_ONE_FUTURES_OPTIONS
  | .NewsHeadlineSubscriptionImpl => H.TYPE_ID_SUB_NEWS_HEADLINE
  | .ChartEquitySubscriptionImpl => H.TYPE_ID_SUB_CHART_EQUITY
  | .ChartFuturesSubscriptionImpl => H.TYPE_ID_SUB_CHART_FUTURES
  | .ChartOptionsSubscriptionImpl => H.TYPE_ID_SUB_CHART_OPTIONS
  | .TimesaleEquitySubscriptionImpl => H.TYPE_ID_SUB_TIMESALE_EQUITY
  | .TimesaleFuturesSubscriptionImpl => H.TYPE_ID_SUB_TIMESALE_FUTURES
  | .TimesaleOptionsSubscriptionImpl => H.TYPE_ID_SUB_TIMESALE_OPTIONS

/-- An object of one of the twelve symbol+field classes: the members of
`SubscriptionBySymbolBaseImpl`, the class's own `_fields`, and the class it was
constructed as. -/
structure SymbolFieldSubscriptionImpl extends SubscriptionBySymbolBaseImpl where
  _fields : List Int
  cls : SymbolFieldImplTy
  deriving DecidableEq, Repr

/-- The constructor `ImplTy(symbols, fields)` of a symbol+field class: the base
constructor is called with the class's service and the command "SUBS", then
`_fields(fields)`. -/
def SymbolFieldImplTy.ctor (T : SymbolFieldImplTy) (symbols : List String)
    (fields : List Int) : Except Exc SymbolFieldSubscriptionImpl :=
  match SubscriptionBySymbolBaseImpl.ctor T.service "SUBS" symbols fields with
  | .error e => .error e
  | .ok base => .ok { toSubscriptionBySymbolBaseImpl := base, _fields := fields, cls := T }

/-- The member `get_fields` of a symbol+field class. -/
def SymbolFieldSubscriptionImpl.get_fields (self : SymbolFieldSubscriptionImpl) : List Int :=
  self._fields

/-- The four concrete classes derived from `ActivesSubscriptionBaseImpl`. -/
inductive ActivesImplTy where
  | NasdaqActivesSubscriptionImpl
  | NYSEActivesSubscriptionImpl
  | OTCBBActivesSubscriptionImpl
  | OptionActivesSubscriptionImpl
  deriving DecidableEq, Repr

/-- An object of one of the four actives classes: the members `_venue` (string)
and `_duration` of `ActivesSubscriptionBaseImpl`, the `VenueType` member of
`OptionActivesSubscriptionImpl` (absent in the other three), and the class it was
constructed as. -/
structure ActivesSubscriptionImpl extends StreamingSubscriptionImpl where
  _venue : String
  _duration : Int
  _venue_type : Option Int
  cls : ActivesImplTy
  deriving DecidableEq, Repr

/-- The object a proxy owns: an instance of one of the sixteen concrete
classes. -/
inductive Impl where
  | symbol_field (o : SymbolFieldSubscriptionImpl)
  | actives (o : ActivesSubscriptionImpl)
  deriving DecidableEq, Repr

/-! ## The C proxy and the create function -/

/-- The proxy struct `StreamingSubscription_C` (and its per-class aliases): the
owned object, `none` for a null `obj`, and the `type_id` tag. -/
structure StreamingSubscription_C where
  obj : Option Impl
  type_id : Int
  deriving DecidableEq, Repr

/-- Modelled from the spec: `kill_proxy` is declared outside this source file;
per the spec it marks the handle invalid: no owned object and an invalid
kind-tag (valid tags are positive by the `static_assert` of
`subscription_is_creatable`). -/
def kill_proxy (_psub : StreamingSubscription_C) : StreamingSubscription_C :=
  { obj := none, type_id := -1 }

/-- What an ABI call leaves behind: the error it reports (`none` when it returns
0) and the proxy as it stands on return (`none` when `psub` is null). Whether the
error is returned as a code or rethrown (`allow_exceptions`) is not recorded. -/
structure AbiResult where
  err : Option Exc
  psub : Option StreamingSubscription_C
  deriving DecidableEq, Repr

/-- Modelled from the spec: the macro `HANDLE_ERROR_EX` is declared outside this
source file; per the spec a failed create reports the error and marks the output
handle invalid before returning. -/
def HANDLE_ERROR_EX (e : Exc) (psub : StreamingSubscription_C) : AbiResult :=
  { err := some e, psub := some (kill_proxy psub) }

/-- The template `create_symbol_field_subscription<ImplTy>`. A null `psub` fails
the `CHECK_PTR` of `subscription_is_creatable`; a null `symbols` or `fields` fails
its `CHECK_PTR_KILL_PROXY`. Object construction through `CallImplFromABI` either
yields the new object or the exception its constructor threw; allocation itself
is taken to succeed. -/
def create_symbol_field_subscription (H : Header) (T : SymbolFieldImplTy)
    (symbols : Option (List String)) (fields : Option (List Int))
    (psub : Option StreamingSubscription_C) : AbiResult :=
  match psub with
  | none => { err := some (null_pointer_error "subscription"), psub := none }
  | some p =>
    match symbols with
    | none => HANDLE_ERROR_EX (null_pointer_error "symbols") p
    | some symbols =>
      match fields with
      | none => HANDLE_ERROR_EX (null_pointer_error "fields") p
      | some fields =>
        if symbols.length > H.SUBSCRIPTION_MAX_SYMBOLS then
          HANDLE_ERROR_EX (.ValueException "nsymbols > SUBSCRIPTION_MAX_SYMBOLS") p
        else if fields.length > H.SUBSCRIPTION_MAX_FIELDS then
          HANDLE_ERROR_EX (.ValueException "nfields > SUBSCRIPTION_MAX_FIELDS") p
        else
          let s_symbols := buffers_to_set string_lt symbols
          if fields.any (fun f => !T.is_valid_field H f) then
            HANDLE_ERROR_EX (.ValueException "invalid FieldType value") p
          else
            let s_fields := buffers_to_set int_lt fields
            match T.ctor s_symbols s_fields with
            | .error e => { err := some e, psub := some (kill_proxy p) }
            | .ok obj =>
              { err := none,
                psub := some { obj := some (.symbol_field obj), type_id := T.TYPE_ID_LOW H } }

/-! ## The actives classes and their create functions -/

/-- The service each actives class passes to its base constructor. -/
def ActivesImplTy.service : ActivesImplTy → StreamerServiceType
  | .NasdaqActivesSubscriptionImpl => .ACTIVES_NASDAQ
  | .NYSEActivesSubscriptionImpl => .ACTIVES_NYSE
  | .OTCBBActivesSubscriptionImpl => .ACTIVES_OTCBB
  | .OptionActivesSubscriptionImpl => .ACTIVES_OPTIONS

/-- The static member `TYPE_ID_LOW` of each actives class (equal to its
`TYPE_ID_HIGH`). -/
def ActivesImplTy.TYPE_ID_LOW (H : Header) : ActivesImplTy → Int
  | .NasdaqActivesSubscriptionImpl => H.TYPE_ID_SUB_ACTIVES_NASDAQ
  | .NYSEActivesSubscriptionImpl => H.TYPE_ID_SUB_ACTIVES_NYSE
  | .OTCBBActivesSubscriptionImpl => H.TYPE_ID_SUB_ACTIVES_OTCBB
  | .OptionActivesSubscriptionImpl => H.TYPE_ID_SUB_ACTIVES_OPTION

/-- The constructor of `ActivesSubscriptionBaseImpl`, called for an object of
class `cls`: the command is "SUBS", the parameters are built from the brace list
`{{"keys", venue + "-" + to_string(duration)}, {"fields", "0,1"}}`. -/
def ActivesSubscriptionBaseImpl_ctor (H : Header) (cls : ActivesImplTy)
    (service : StreamerServiceType) (venue : String) (duration : Int) :
    ActivesSubscriptionImpl :=
  { _service := service, _command := "SUBS",
    _parameters := map_of [("keys", venue ++ "-" ++ H.DurationType_to_string duration),
                           ("fields", "0,1")],
    _venue := venue, _duration := duration, _venue_type := none, cls := cls }

/-- The three classes `create_duration_subscription` is instantiated with: their
constructor takes the duration only and passes a literal venue. -/
inductive FixedVenueImplTy where
  | NasdaqActivesSubscriptionImpl
  | NYSEActivesSubscriptionImpl
  | OTCBBActivesSubscriptionImpl
  deriving DecidableEq, Repr

/-- A fixed-venue class as one of the four actives classes. -/
def FixedVenueImplTy.toActives : FixedVenueImplTy → ActivesImplTy
  | .NasdaqActivesSubscriptionImpl => .NasdaqActivesSubscriptionImpl
  | .NYSEActivesSubscriptionImpl => .NYSEActivesSubscriptionImpl
  | .OTCBBActivesSubscriptionImpl => .OTCBBActivesSubscriptionImpl

/-- The venue literal each fixed-venue class passes to its base constructor. -/
def FixedVenueImplTy.venue : FixedVenueImplTy → String
  | .NasdaqActivesSubscriptionImpl => "NASDAQ"
  | .NYSEActivesSubscriptionImpl => "NYSE"
  | .OTCBBActivesSubscriptionImpl => "OTCBB"

/-- The constructor `ImplTy(duration)` of a fixed-venue class. -/
def FixedVenueImplTy.ctor (H : Header) (T : FixedVenueImplTy) (duration : Int) :
    ActivesSubscriptionImpl :=
  ActivesSubscriptionBaseImpl_ctor H T.toActives T.toActives.service T.venue duration

/-- The constructor `OptionActivesSubscriptionImpl(venue, duration)`: the base is
constructed with `to_string(venue)`, then `_venue(venue)`. -/
def OptionActivesSubscriptionImpl_ctor (H : Header) (venue duration : Int) :
    ActivesSubscriptionImpl :=
  { ActivesSubscriptionBaseImpl_ctor H .OptionActivesSubscriptionImpl .ACTIVES_OPTIONS
      (H.VenueType_to_string venue) duration with _venue_type := some venue }

/-- The member `ActivesSubscriptionBaseImpl::get_duration`. -/
def ActivesSubscriptionImpl.get_duration (self : ActivesSubscriptionImpl) : Int :=
  self._duration

/-- The template `create_duration_subscription<ImplTy>`. The constructor of an
actives class throws nothing; allocation itself is taken to succeed. -/
def create_duration_subscription (H : Header) (T : FixedVenueImplTy) (duration : Int)
    (psub : Option StreamingSubscription_C) : AbiResult :=
  match psub with
  | none => { err := some (null_pointer_error "subscription"), psub := none }
  | some p =>
    if !H.DurationType_is_valid duration then
      HANDLE_ERROR_EX (.ValueException "invalid DurationType value") p
    else
      { err := none,
        psub := some { obj := some (.actives (T.ctor H duration)),
                       type_id := T.toActives.TYPE_ID_LOW H } }

/-- The function `OptionActivesSubscription_Create_ABI`: the venue is checked
before the duration. -/
def OptionActivesSubscription_Create_ABI (H : Header) (venue duration_type : Int)
    (psub : Option StreamingSubscription_C) : AbiResult :=
  match psub with
  | none => { err := some (null_pointer_error "subscription"), psub := none }
  | some p =>
    if !H.VenueType_is_valid venue then
      HANDLE_ERROR_EX (.ValueException "invalid VenueType value") p
    else if !H.DurationType_is_valid duration_type then
      HANDLE_ERROR_EX (.ValueException "invalid DurationType value") p
    else
      { err := none,
        psub := some { obj := some (.actives (OptionActivesSubscriptionImpl_ctor H venue
                                                duration_type)),
                       type_id := ActivesImplTy.OptionActivesSubscriptionImpl.TYPE_ID_LOW H } }

/-! ## Classes, type identifiers and the downcast -/

/-- The sixteen concrete classes. -/
inductive ConcreteImplTy where
  | symbol_field (T : SymbolFieldImplTy)
  | actives (T : ActivesImplTy)
  deriving DecidableEq, Repr

/-- The `TYPE_ID_LOW` of a concrete class (equal to its `TYPE_ID_HIGH`). -/
def ConcreteImplTy.TYPE_ID (H : Header) : ConcreteImplTy → Int
  | .symbol_field T => T.TYPE_ID_LOW H
  | .actives T => T.TYPE_ID_LOW H

/-- The class an object was constructed as. -/
def Impl.dyn : Impl → ConcreteImplTy
  | .symbol_field o => .symbol_field o.cls
  | .actives o => .actives o.cls

/-- The members of `StreamingSubscriptionImpl` inside an object of any class. -/
def Impl.base : Impl → StreamingSubscriptionImpl
  | .symbol_field o => o.toStreamingSubscriptionImpl
  | .actives o => o.toStreamingSubscriptionImpl

/-- The classes that the templates `proxy_is_callable`, `get_fields` and
`destroy_proxy` are instantiated with in this source file: the root class, the
four intermediate base classes and the sixteen concrete classes. -/
inductive ImplClass where
  | StreamingSubscriptionImpl
  | SubscriptionBySymbolBaseImpl
  | ChartSubscriptionBaseImpl
  | TimesaleSubscriptionBaseImpl
  | ActivesSubscriptionBaseImpl
  | concrete (K : ConcreteImplTy)
  deriving DecidableEq, Repr

/-- The static member `TYPE_ID_LOW` of a class. -/
def ImplClass.TYPE_ID_LOW (H : Header) : ImplClass → Int
  | .StreamingSubscriptionImpl => H.StreamingSubscriptionImpl_TYPE_ID_LOW
  | .SubscriptionBySymbolBaseImpl => H.TYPE_ID_SUB_QUOTES
  | .ChartSubscriptionBaseImpl => H.TYPE_ID_SUB_CHART_FOREX
  | .TimesaleSubscriptionBaseImpl => H.TYPE_ID_SUB_TIMESALE_EQUITY
  | .ActivesSubscriptionBaseImpl => H.TYPE_ID_SUB_ACTIVES_NASDAQ
  | .concrete K => K.TYPE_ID H

/-- The static member `TYPE_ID_HIGH` of a class. -/
def ImplClass.TYPE_ID_HIGH (H : Header) : ImplClass → Int
  | .StreamingSubscriptionImpl => H.StreamingSubscriptionImpl_TYPE_ID_HIGH
  | .SubscriptionBySymbolBaseImpl => H.TYPE_ID_SUB_TIMESALE_OPTIONS
  | .ChartSubscriptionBaseImpl => H.TYPE_ID_SUB_CHART_OPTIONS
  | .TimesaleSubscriptionBaseImpl => H.TYPE_ID_SUB_TIMESALE_OPTIONS
  | .ActivesSubscriptionBaseImpl => H.TYPE_ID_SUB_ACTIVES_OPTION
  | .concrete K => K.TYPE_ID H

/-- Whether an object constructed as `K` is an instance of the class: a pointer
to it may then be read through a pointer to the class. -/
def ImplClass.has_instance : ImplClass → ConcreteImplTy → Bool
  | .StreamingSubscriptionImpl, _ => true
  | .SubscriptionBySymbolBaseImpl, .symbol_field _ => true
  | .SubscriptionBySymbolBaseImpl, .actives _ => false
  | .ChartSubscriptionBaseImpl, .symbol_field .ChartFuturesSubscriptionImpl => true
  | .ChartSubscriptionBaseImpl, .symbol_field .ChartOptionsSubscriptionImpl => true
  | .ChartSubscriptionBaseImpl, _ => false
  | .TimesaleSubscriptionBaseImpl, .symbol_field .TimesaleEquitySubscriptionImpl => true
  | .TimesaleSubscriptionBaseImpl, .symbol_field .TimesaleFuturesSubscriptionImpl => true
  | .TimesaleSubscriptionBaseImpl, .symbol_field .TimesaleOptionsSubscriptionImpl => true
  | .TimesaleSubscriptionBaseImpl, _ => false
  | .ActivesSubscriptionBaseImpl, .actives _ => true
  | .ActivesSubscriptionBaseImpl, .symbol_field _ => false
  | .concrete K, K' => decide (K = K')

/-- Modelled from the spec: `base_proxy_is_callable` is declared outside this
source file; per the spec a null required input is a precondition error. The
proxy must be non-null and own an object. -/
def base_proxy_is_callable (psub : Option StreamingSubscription_C) : Option Exc :=
  match psub with
  | none => some (null_pointer_error "proxy")
  | some p => if p.obj.isNone then some (null_pointer_error "proxy->obj") else none

/-- Modelled from the spec: the template `proxy_is_callable<ImplTy>` is declared
outside this source file; per the spec an access checks the handle's kind-tag
against the accepted closed range `[TYPE_ID_LOW, TYPE_ID_HIGH]` and fails with a
type mismatch, without touching the object, when the tag is outside; a null
handle and a handle that owns no object are precondition errors. The result is
the error, `none` for 0. The message of the type error is not given by the
spec. -/
def proxy_is_callable (H : Header) (C : ImplClass) (psub : Option StreamingSubscription_C) :
    Option Exc :=
  match psub with
  | none => some (null_pointer_error "proxy")
  | some p =>
    if p.type_id < C.TYPE_ID_LOW H ∨ C.TYPE_ID_HIGH H < p.type_id then
      some (.TypeException "proxy type_id out of range")
    else if p.obj.isNone then
      some (null_pointer_error "proxy->obj")
    else
      none

/-- The case labels of the `switch` in `C_sub_ptr_to_impl_ptr`, in source order,
each with the class its case casts to. The chart-forex and timesale-forex labels
are commented out in the source and are not in the list. -/
def switch_cases : List ConcreteImplTy :=
  [.symbol_field .QuotesSubscriptionImpl,
   .symbol_field .OptionsSubscriptionImpl,
   .symbol_field .LevelOneFuturesSubscriptionImpl,
   .symbol_field .LevelOneForexSubscriptionImpl,
   .symbol_field .LevelOneFuturesOptionsSubscriptionImpl,
   .symbol_field .NewsHeadlineSubscriptionImpl,
   .symbol_field .ChartEquitySubscriptionImpl,
   .symbol_field .ChartFuturesSubscriptionImpl,
   .symbol_field .ChartOptionsSubscriptionImpl,
   .symbol_field .TimesaleEquitySubscriptionImpl,
   .symbol_field .TimesaleFuturesSubscriptionImpl,
   .symbol_field .TimesaleOptionsSubscriptionImpl,
   .actives .NasdaqActivesSubscriptionImpl,
   .actives .NYSEActivesSubscriptionImpl,
   .actives .OTCBBActivesSubscriptionImpl,
   .actives .OptionActivesSubscriptionImpl]

/-- The function `C_sub_ptr_to_impl_ptr`: after `base_proxy_is_callable(psub, 1)`,
which throws when the proxy is not callable, the `switch` on `psub->type_id`
returns `psub->obj` cast to the class of the first matching case label, and the
`default` throws the `TypeException`. The result is the class the pointer is cast
to together with the pointer. -/
def C_sub_ptr_to_impl_ptr (H : Header) (psub : Option StreamingSubscription_C) :
    Except Exc (ConcreteImplTy × Option Impl) :=
  match base_proxy_is_callable psub with
  | some e => .error e
  | none =>
    match psub with
    | none => .error (null_pointer_error "proxy")
    | some p =>
      match switch_cases.find? (fun K => K.TYPE_ID H == p.type_id) with
      | some K => .ok (K, p.obj)
      | none => .error (.TypeException "invalid C subscription type_id")

/-! ## Destroy -/

/-- What a destroy call leaves behind: the error it reports, the proxy as it
stands on return, and the object it deleted (`none` when it deleted nothing). -/
structure DestroyResult where
  err : Option Exc
  psub : Option StreamingSubscription_C
  deleted : Option Impl
  deriving DecidableEq, Repr

/-- The function `StreamingSubscription_Destroy_ABI` (the generic destroy): when
the proxy is callable, `delete C_sub_ptr_to_impl_ptr(obj)` runs through
`CallImplFromABI`, then `kill_proxy(psub)` whether or not the downcast threw. -/
def StreamingSubscription_Destroy_ABI (H : Header) (psub : Option StreamingSubscription_C) :
    DestroyResult :=
  match proxy_is_callable H .StreamingSubscriptionImpl psub with
  | some e => { err := some e, psub := psub, deleted := none }
  | none =>
    match C_sub_ptr_to_impl_ptr H psub with
    | .error e => { err := some e, psub := psub.map kill_proxy, deleted := none }
    | .ok (_, obj) => { err := none, psub := psub.map kill_proxy, deleted := obj }

/-- Modelled from the spec: the template `destroy_proxy<ImplTy>`, which the
per-class `*_Destroy_ABI` functions call, is declared outside this source file;
per the spec destroy frees the owned object exactly once, then marks the handle
inert, and destroying an already-inert handle is a reported error. The handle is
checked with `proxy_is_callable<ImplTy>` first. -/
def destroy_proxy (H : Header) (K : ConcreteImplTy) (psub : Option StreamingSubscription_C) :
    DestroyResult :=
  match proxy_is_callable H (.concrete K) psub with
  | some e => { err := some e, psub := psub, deleted := none }
  | none => { err := none, psub := psub.map kill_proxy, deleted := psub.bind (fun p => p.obj) }

/-! ## Accessors -/

/-- What an accessor call does: it returns, with the error it reports (`none`
for 0) and the caller-supplied output locations as they stand on return, or it
has no defined behaviour (a null pointer is dereferenced, or the object is read
through a pointer to a class it is not an instance of). An output location is an
`Option`: `none` for a null pointer, `some v` for a location that holds `v`. -/
inductive Outcome (α : Type) where
  | returned (err : Option Exc) (out : α)
  | undefined
  deriving Repr

/-- The read `reinterpret_cast<C*>(psub->obj)` followed by a member read: defined
when the proxy owns an object that is an instance of `C`. -/
def read_as (C : ImplClass) (psub : Option StreamingSubscription_C) : Option Impl :=
  match psub.bind (fun p => p.obj) with
  | none => none
  | some o => if C.has_instance o.dyn then some o else none

/-- The function `StreamingSubscription_GetService_ABI`. -/
def StreamingSubscription_GetService_ABI (H : Header) (psub : Option StreamingSubscription_C)
    (service : Option Int) : Outcome (Option Int) :=
  match proxy_is_callable H .StreamingSubscriptionImpl psub with
  | some e => .returned (some e) service
  | none =>
    match service with
    | none => .returned (some (null_pointer_error "service")) service
    | some _ =>
      match read_as .StreamingSubscriptionImpl psub with
      | none => .undefined
      | some o => .returned none (some (H.StreamerServiceType_to_int o.base._service))

/-- Modelled from the spec: `to_new_char_buffer(r, buf, n, allow_exceptions)` is
declared outside this source file; per the spec an operation either completes and
writes all its outputs or reports an error and leaves them untouched, and
allocation failure is a separately reported error. On success `*buf` holds the
string and `*n` the reported buffer size. -/
def to_new_char_buffer (H : Header) (alloc_ok : Bool) (r : String)
    (buf : Option String) (n : Nat) : Outcome (Option (Option String) × Option Nat) :=
  if alloc_ok then .returned none (some (some r), some (H.to_new_char_buffer_size r))
  else .returned (some .AllocationError) (some buf, some n)

/-- The function `StreamingSubscription_GetCommand_ABI`. -/
def StreamingSubscription_GetCommand_ABI (H : Header) (alloc_ok : Bool)
    (psub : Option StreamingSubscription_C) (buf : Option (Option String)) (n : Option Nat) :
    Outcome (Option (Option String) × Option Nat) :=
  match proxy_is_callable H .StreamingSubscriptionImpl psub with
  | some e => .returned (some e) (buf, n)
  | none =>
    match buf with
    | none => .returned (some (null_pointer_error "buf")) (buf, n)
    | some b =>
      match n with
      | none => .returned (some (null_pointer_error "n")) (buf, n)
      | some k =>
        match read_as .StreamingSubscriptionImpl psub with
        | none => .undefined
        | some o => to_new_char_buffer H alloc_ok o.base._command b k

/-- Modelled from the spec: `to_new_char_buffers(strs, buffers, n,
allow_exceptions)` is declared outside this source file; per the spec an operation
either completes and writes all its outputs or reports an error and leaves them
untouched. On success `*buffers` holds the strings in the order of the set and
`*n` their number. -/
def to_new_char_buffers (alloc_ok : Bool) (strs : List String)
    (buffers : Option (List String)) (n : Nat) :
    Outcome (Option (Option (List String)) × Option Nat) :=
  if alloc_ok then .returned none (some (some strs), some strs.length)
  else .returned (some .AllocationError) (some buffers, some n)

/-- The symbols an object holds when read as a `SubscriptionBySymbolBaseImpl`. -/
def Impl.symbols : Impl → Option (List String)
  | .symbol_field o => some o.get_symbols
  | .actives _ => none

/-- The function `SubscriptionBySymbolBase_GetSymbols_ABI`. -/
def SubscriptionBySymbolBase_GetSymbols_ABI (H : Header) (alloc_ok : Bool)
    (psub : Option StreamingSubscription_C) (buffers : Option (Option (List String)))
    (n : Option Nat) : Outcome (Option (Option (List String)) × Option Nat) :=
  match proxy_is_callable H .SubscriptionBySymbolBaseImpl psub with
  | some e => .returned (some e) (buffers, n)
  | none =>
    match buffers with
    | none => .returned (some (null_pointer_error "buffers")) (buffers, n)
    | some b =>
      match n with
      | none => .returned (some (null_pointer_error "n")) (buffers, n)
      | some k =>
        match (read_as .SubscriptionBySymbolBaseImpl psub).bind Impl.symbols with
        | none => .undefined
        | some strs => to_new_char_buffers alloc_ok strs b k

/-- The classes `get_fields` is instantiated with: seven concrete classes through
`DEFINE_CSUB_GET_FIELDS_FUNC` and the two base classes through
`DEFINE_CSUB_GET_FIELDS_BASE_FUNC`. -/
inductive FieldsImplTy where
  | QuotesSubscriptionImpl
  | OptionsSubscriptionImpl
  | LevelOneFuturesSubscriptionImpl
  | LevelOneForexSubscriptionImpl
  | LevelOneFuturesOptionsSubscriptionImpl
  | NewsHeadlineSubscriptionImpl
  | ChartEquitySubscriptionImpl
  | ChartSubscriptionBaseImpl
  | TimesaleSubscriptionBaseImpl
  deriving DecidableEq, Repr

/-- The class behind each instantiation of `get_fields`. -/
def FieldsImplTy.cls : FieldsImplTy → ImplClass
  | .QuotesSubscriptionImpl => .concrete (.symbol_field .QuotesSubscriptionImpl)
  | .OptionsSubscriptionImpl => .concrete (.symbol_field .OptionsSubscriptionImpl)
  | .LevelOneFuturesSubscriptionImpl =>
    .concrete (.symbol_field .LevelOneFuturesSubscriptionImpl)
  | .LevelOneForexSubscriptionImpl => .concrete (.symbol_field .LevelOneForexSubscriptionImpl)
  | .LevelOneFuturesOptionsSubscriptionImpl =>
    .concrete (.symbol_field .LevelOneFuturesOptionsSubscriptionImpl)
  | .NewsHeadlineSubscriptionImpl => .concrete (.symbol_field .NewsHeadlineSubscriptionImpl)
  | .ChartEquitySubscriptionImpl => .concrete (.symbol_field .ChartEquitySubscriptionImpl)
  | .ChartSubscriptionBaseImpl => .ChartSubscriptionBaseImpl
  | .TimesaleSubscriptionBaseImpl => .TimesaleSubscriptionBaseImpl

/-- The fields an object holds when read as one of the symbol+field classes. -/
def Impl.fields : Impl → Option (List Int)
  | .symbol_field o => some o.get_fields
  | .actives _ => none

/-- Modelled from the spec: `tdma::alloc_to_buffer(pbuf, n, allow_exceptions)` is
declared outside this source file; per the spec a missing output location is a
precondition error reported without allocating, and allocation failure is a
separately reported error. The result is the error, `none` for 0, on which
`*pbuf` points to a new buffer of `n` elements. -/
def alloc_to_buffer (alloc_ok : Bool) (pbuf : Option (Option (List Int))) : Option Exc :=
  match pbuf with
  | none => some (null_pointer_error "buffer")
  | some _ => if alloc_ok then none else some .AllocationError

/-- The template `get_fields<ImplTy>`. It has no `CHECK_PTR` on `fields` or on `n`:
`*n = f.size()` is written before `alloc_to_buffer` is called, and dereferences
`n` whether or not it is null. -/
def get_fields (H : Header) (T : FieldsImplTy) (alloc_ok : Bool)
    (psub : Option StreamingSubscription_C) (fields : Option (Option (List Int)))
    (n : Option Nat) : Outcome (Option (Option (List Int)) × Option Nat) :=
  match proxy_is_callable H T.cls psub with
  | some e => .returned (some e) (fields, n)
  | none =>
    match (read_as T.cls psub).bind Impl.fields with
    | none => .undefined
    | some f =>
      match n with
      | none => .undefined
      | some _ =>
        match alloc_to_buffer alloc_ok fields with
        | some e => .returned (some e) (fields, some f.length)
        | none => .returned none (some (some f), some f.length)

/-- The duration an object holds when read as an `ActivesSubscriptionBaseImpl`. -/
def Impl.duration : Impl → Option Int
  | .symbol_field _ => none
  | .actives o => some o.get_duration

/-- The function `ActivesSubscriptionBase_GetDuration_ABI`. -/
def ActivesSubscriptionBase_GetDuration_ABI (H : Header)
    (psub : Option StreamingSubscription_C) (duration : Option Int) : Outcome (Option Int) :=
  match proxy_is_callable H .ActivesSubscriptionBaseImpl psub with
  | some e => .returned (some e) duration
  | none =>
    match duration with
    | none => .returned (some (null_pointer_error "duration")) duration
    | some _ =>
      match (read_as .ActivesSubscriptionBaseImpl psub).bind Impl.duration with
      | none => .undefined
      | some d => .returned none (some d)

/-- The venue code an object holds when read as an
`OptionActivesSubscriptionImpl` (`get_venue`). -/
def Impl.venue : Impl → Option Int
  | .symbol_field _ => none
  | .actives o => o._venue_type

/-- The function `OptionActivesSubscription_GetVenue_ABI`. -/
def OptionActivesSubscription_GetVenue_ABI (H : Header)
    (psub : Option StreamingSubscription_C) (venue : Option Int) : Outcome (Option Int) :=
  match proxy_is_callable H (.concrete (.actives .OptionActivesSubscriptionImpl)) psub with
  | some e => .returned (some e) venue
  | none =>
    match venue with
    | none => .returned (some (null_pointer_error "venue")) venue
    | some _ =>
      match (read_as (.concrete (.actives .OptionActivesSubscriptionImpl)) psub).bind
          Impl.venue with
      | none => .undefined
      | some v => .returned none (some v)

/-- The accessor functions of the ABI. -/
inductive Accessor where
  | GetService
  | GetCommand
  | GetSymbols
  | GetFields (T : FieldsImplTy)
  | GetDuration
  | GetVenue
  deriving DecidableEq, Repr

/-- The caller-supplied output locations of each accessor. -/
def Accessor.Out : Accessor → Type
  | .GetService => Option Int
  | .GetCommand => Option (Option String) × Option Nat
  | .GetSymbols => Option (Option (List String)) × Option Nat
  | .GetFields _ => Option (Option (List Int)) × Option Nat
  | .GetDuration => Option Int
  | .GetVenue => Option Int

/-- The class each accessor passes to `proxy_is_callable`: the handle's tag must
lie in `[TYPE_ID_LOW, TYPE_ID_HIGH]` of this class. -/
def Accessor.cls : Accessor → ImplClass
  | .GetService => .StreamingSubscriptionImpl
  | .GetCommand => .StreamingSubscriptionImpl
  | .GetSymbols => .SubscriptionBySymbolBaseImpl
  | .GetFields T => T.cls
  | .GetDuration => .ActivesSubscriptionBaseImpl
  | .GetVenue => .concrete (.actives .OptionActivesSubscriptionImpl)

/-- A call of an accessor on a handle with the given output locations;
`alloc_ok` says whether a buffer allocation made by the call succeeds. -/
def Accessor.call (H : Header) (alloc_ok : Bool) :
    (a : Accessor) → Option StreamingSubscription_C → a.Out → Outcome a.Out
  | .GetService, psub, out => StreamingSubscription_GetService_ABI H psub out
  | .GetCommand, psub, out => StreamingSubscription_GetCommand_ABI H alloc_ok psub out.1 out.2
  | .GetSymbols, psub, out => SubscriptionBySymbolBase_GetSymbols_ABI H alloc_ok psub out.1 out.2
  | .GetFields T, psub, out => get_fields H T alloc_ok psub out.1 out.2
  | .GetDuration, psub, out => ActivesSubscriptionBase_GetDuration_ABI H psub out
  | .GetVenue, psub, out => OptionActivesSubscription_GetVenue_ABI H psub out

/-- The memory of the caller that an accessor call can reach: the proxy `*psub`
(`none` for a null `psub`) and the output locations it is passed. -/
structure AccessorMemory (α : Type) where
  psub : Option StreamingSubscription_C
  out : α

/-- The function `StreamingSubscription_GetService_ABI` as a step on the caller's
memory: each statement of the body is carried out on the memory it is handed, and
each return hands the memory on as the statements before it left it. The reads of
`psub->type_id` and `psub->obj` leave it as it is; `*service = ...` replaces the
output location. -/
def StreamingSubscription_GetService_ABI_step (H : Header)
    (m : AccessorMemory (Option Int)) : Outcome (AccessorMemory (Option Int)) :=
  match proxy_is_callable H .StreamingSubscriptionImpl m.psub with
  | some e => .returned (some e) m
  | none =>
    match m.out with
    | none => .returned (some (null_pointer_error "service")) m
    | some _ =>
      match read_as .StreamingSubscriptionImpl m.psub with
      | none => .undefined
      | some o =>
        .returned none { m with out := some (H.StreamerServiceType_to_int o.base._service) }

/-- The function `StreamingSubscription_GetCommand_ABI` as a step on the caller's
memory; `to_new_char_buffer` is handed the two output locations only. -/
def StreamingSubscription_GetCommand_ABI_step (H : Header) (alloc_ok : Bool)
    (m : AccessorMemory (Option (Option String) × Option Nat)) :
    Outcome (AccessorMemory (Option (Option String) × Option Nat)) :=
  match proxy_is_callable H .StreamingSubscriptionImpl m.psub with
  | some e => .returned (some e) m
  | none =>
    match m.out.1 with
    | none => .returned (some (null_pointer_error "buf")) m
    | some b =>
      match m.out.2 with
      | none => .returned (some (null_pointer_error "n")) m
      | some k =>
        match read_as .StreamingSubscriptionImpl m.psub with
        | none => .undefined
        | some o =>
          match to_new_char_buffer H alloc_ok o.base._command b k with
          | .returned err out => .returned err { m with out := out }
          | .undefined => .undefined

/-- The function `SubscriptionBySymbolBase_GetSymbols_ABI` as a step on the
caller's memory; `to_new_char_buffers` is handed the two output locations only. -/
def SubscriptionBySymbolBase_GetSymbols_ABI_step (H : Header) (alloc_ok : Bool)
    (m : AccessorMemory (Option (Option (List String)) × Option Nat)) :
    Outcome (AccessorMemory (Option (Option (List String)) × Option Nat)) :=
  match proxy_is_callable H .SubscriptionBySymbolBaseImpl m.psub with
  | some e => .returned (some e) m
  | none =>
    match m.out.1 with
    | none => .returned (some (null_pointer_error "buffers")) m
    | some b =>
      match m.out.2 with
      | none => .returned (some (null_pointer_error "n")) m
      | some k =>
        match (read_as .SubscriptionBySymbolBaseImpl m.psub).bind Impl.symbols with
        | none => .undefined
        | some strs =>
          match to_new_char_buffers alloc_ok strs b k with
          | .returned err out => .returned err { m with out := out }
          | .undefined => .undefined

/-- The template `get_fields<ImplTy>` as a step on the caller's memory: `*n =
f.size()` replaces the count location, the loop after a successful
`alloc_to_buffer` fills the buffer location. -/
def get_fields_step (H : Header) (T : FieldsImplTy) (alloc_ok : Bool)
    (m : AccessorMemory (Option (Option (List Int)) × Option Nat)) :
    Outcome (AccessorMemory (Option (Option (List Int)) × Option Nat)) :=
  match proxy_is_callable H T.cls m.psub with
  | some e => .returned (some e) m
  | none =>
    match (read_as T.cls m.psub).bind Impl.fields with
    | none => .undefined
    | some f =>
      match m.out.2 with
      | none => .undefined
      | some _ =>
        match alloc_to_buffer alloc_ok m.out.1 with
        | some e => .returned (some e) { m with out := (m.out.1, some f.length) }
        | none => .returned none { m with out := (some (some f), some f.length) }

/-- The function `ActivesSubscriptionBase_GetDuration_ABI` as a step on the
caller's memory. -/
def ActivesSubscriptionBase_GetDuration_ABI_step (H : Header)
    (m : AccessorMemory (Option Int)) : Outcome (AccessorMemory (Option Int)) :=
  match proxy_is_callable H .ActivesSubscriptionBaseImpl m.psub with
  | some e => .returned (some e) m
  | none =>
    match m.out with
    | none => .returned (some (null_pointer_error "duration")) m
    | some _ =>
      match (read_as .ActivesSubscriptionBaseImpl m.psub).bind Impl.duration with
      | none => .undefined
      | some d => .returned none { m with out := some d }

/-- The function `OptionActivesSubscription_GetVenue_ABI` as a step on the
caller's memory. -/
def OptionActivesSubscription_GetVenue_ABI_step (H : Header)
    (m : AccessorMemory (Option Int)) : Outcome (AccessorMemory (Option Int)) :=
  match proxy_is_callable H (.concrete (.actives .OptionActivesSubscriptionImpl)) m.psub with
  | some e => .returned (some e) m
  | none =>
    match m.out with
    | none => .returned (some (null_pointer_error "venue")) m
    | some _ =>
      match (read_as (.concrete (.actives .OptionActivesSubscriptionImpl)) m.psub).bind
          Impl.venue with
      | none => .undefined
      | some v => .returned none { m with out := some v }

/-- A call of an accessor as a step on the caller's memory. -/
def Accessor.step (H : Header) (alloc_ok : Bool) :
    (a : Accessor) → AccessorMemory a.Out → Outcome (AccessorMemory a.Out)
  | .GetService, m => StreamingSubscription_GetService_ABI_step H m
  | .GetCommand, m => StreamingSubscription_GetCommand_ABI_step H alloc_ok m
  | .GetSymbols, m => SubscriptionBySymbolBase_GetSymbols_ABI_step H alloc_ok m
  | .GetFields T, m => get_fields_step H T alloc_ok m
  | .GetDuration, m => ActivesSubscriptionBase_GetDuration_ABI_step H m
  | .GetVenue, m => OptionActivesSubscription_GetVenue_ABI_step H m

/-- One call in a sequence of accessor calls: the accessor, whether a buffer
allocation made by the call succeeds, and the output locations it is passed. -/
structure AccessorCall where
  a : Accessor
  alloc_ok : Bool
  out : a.Out

/-- A sequence of accessor calls on one handle, each a step on the memory the call
before it left: the result is the proxy after the last call, or no defined
behaviour as soon as one call has none. -/
def run_calls (H : Header) :
    List AccessorCall → Option StreamingSubscription_C → Outcome (Option StreamingSubscription_C)
  | [], psub => .returned none psub
  | c :: cs, psub =>
    match c.a.step H c.alloc_ok { psub := psub, out := c.out } with
    | .undefined => .undefined
    | .returned _ m => run_calls H cs m.psub

/-- The service each of the sixteen concrete classes passes to its base
constructor. -/
def ConcreteImplTy.service : ConcreteImplTy → StreamerServiceType
  | .symbol_field T => T.service
  | .actives T => T.service

/-- The instantiation of `get_fields` behind the `*_GetFields_ABI` function that
serves each symbol+field class: its own for the first seven, that of the base
class for the chart futures/options and the timesale classes. -/
def SymbolFieldImplTy.fields_accessor : SymbolFieldImplTy → FieldsImplTy
  | .QuotesSubscriptionImpl => .QuotesSubscriptionImpl
  | .OptionsSubscriptionImpl => .OptionsSubscriptionImpl
  | .LevelOneFuturesSubscriptionImpl => .LevelOneFuturesSubscriptionImpl
  | .LevelOneForexSubscriptionImpl => .LevelOneForexSubscriptionImpl
  | .LevelOneFuturesOptionsSubscriptionImpl => .LevelOneFuturesOptionsSubscriptionImpl
  | .NewsHeadlineSubscriptionImpl => .NewsHeadlineSubscriptionImpl
  | .ChartEquitySubscriptionImpl => .ChartEquitySubscriptionImpl
  | .ChartFuturesSubscriptionImpl => .ChartSubscriptionBaseImpl
  | .ChartOptionsSubscriptionImpl => .ChartSubscriptionBaseImpl
  | .TimesaleEquitySubscriptionImpl => .TimesaleSubscriptionBaseImpl
  | .TimesaleFuturesSubscriptionImpl => .TimesaleSubscriptionBaseImpl
  | .TimesaleOptionsSubscriptionImpl => .TimesaleSubscriptionBaseImpl

/-- Every accessor and every destroy called on the handle returns an error, writes
nothing to its output locations, deletes nothing and leaves the handle as it
was. -/
def Inert (H : Header) (q : StreamingSubscription_C) : Prop :=
  (∀ (a : Accessor) (alloc_ok : Bool) (out : a.Out),
      ∃ e, a.call H alloc_ok (some q) out = .returned (some e) out)
    ∧ (∃ e, StreamingSubscription_Destroy_ABI H (some q)
        = { err := some e, psub := some q, deleted := none })
    ∧ (∀ K : ConcreteImplTy, ∃ e, destroy_proxy H K (some q)
        = { err := some e, psub := some q, deleted := none })

/-! ## Order properties and a sample header -/

/-- The comparator is a strict total order: what `std::set` requires of it for
equivalence to be equality. -/
structure StrictTotal {α : Type} (lt : α → α → Bool) : Prop where
  irrefl : ∀ a, lt a a = false
  trans : ∀ a b c, lt a b = true → lt b c = true → lt a c = true
  tri : ∀ a b, lt a b = false → lt b a = false → a = b

/-- The list is strictly ascending for the comparator: the iteration order of a
`std::set`, which holds no two equivalent elements. -/
def Ascending {α : Type} (lt : α → α → Bool) (l : List α) : Prop :=
  List.Pairwise (fun a b => lt a b = true) l

/-- A header instance for evaluating the definitions on concrete inputs. The
limits, ranges and identifiers are placeholders chosen for the examples, not the
values of the library's headers. -/
def sample_header : Header where
  SUBSCRIPTION_MAX_SYMBOLS := 8
  SUBSCRIPTION_MAX_FIELDS := 8
  QuotesSubscriptionField_is_valid := fun v => decide (0 ≤ v ∧ v ≤ 52)
  OptionsSubscriptionField_is_valid := fun v => decide (0 ≤ v ∧ v ≤ 41)
  LevelOneFuturesSubscriptionField_is_valid := fun v => decide (0 ≤ v ∧ v ≤ 35)
  LevelOneForexSubscriptionField_is_valid := fun v => decide (0 ≤ v ∧ v ≤ 29)
  LevelOneFuturesOptionsSubscriptionField_is_valid := fun v => decide (0 ≤ v ∧ v ≤ 35)
  NewsHeadlineSubscriptionField_is_valid := fun v => decide (0 ≤ v ∧ v ≤ 10)
  ChartEquitySubscriptionField_is_valid := fun v => decide (0 ≤ v ∧ v ≤ 8)
  ChartSubscriptionField_is_valid := fun v => decide (0 ≤ v ∧ v ≤ 6)
  TimesaleSubscriptionField_is_valid := fun v => decide (0 ≤ v ∧ v ≤ 4)
  DurationType_is_valid := fun v => decide (0 ≤ v ∧ v ≤ 6)
  VenueType_is_valid := fun v => decide (0 ≤ v ∧ v ≤ 4)
  TYPE_ID_SUB_QUOTES := 1
  TYPE_ID_SUB_OPTIONS := 2
  TYPE_ID_SUB_LEVEL_ONE_FUTURES := 3
  TYPE_ID_SUB_LEVEL_ONE_FOREX := 4
  TYPE_ID_SUB_LEVEL_ONE_FUTURES_OPTIONS := 5
  TYPE_ID_SUB_NEWS_HEADLINE := 6
  TYPE_ID_SUB_CHART_EQUITY := 7
  TYPE_ID_SUB_CHART_FOREX := 8
  TYPE_ID_SUB_CHART_FUTURES := 9
  TYPE_ID_SUB_CHART_OPTIONS := 10
  TYPE_ID_SUB_TIMESALE_EQUITY := 11
  TYPE_ID_SUB_TIMESALE_FOREX := 12
  TYPE_ID_SUB_TIMESALE_FUTURES := 13
  TYPE_ID_SUB_TIMESALE_OPTIONS := 14
  TYPE_ID_SUB_ACTIVES_NASDAQ := 15
  TYPE_ID_SUB_ACTIVES_NYSE := 16
  TYPE_ID_SUB_ACTIVES_OTCBB := 17
  TYPE_ID_SUB_ACTIVES_OPTION := 18
  StreamingSubscriptionImpl_TYPE_ID_LOW := 1
  StreamingSubscriptionImpl_TYPE_ID_HIGH := 18
  DurationType_to_string := fun d =>
    if d = 0 then "ALL" else if d = 1 then "3600" else if d = 2 then "1800"
    else if d = 3 then "600" else if d = 4 then "300" else "60"
  VenueType_to_string := fun v =>
    if v = 0 then "OPTS" else if v = 1 then "CALLS" else if v = 2 then "PUTS"
    else if v = 3 then "OPTS-DESC" else "CALLS-DESC"
  StreamerServiceType_to_int := fun s =>
    match s with
    | .QUOTE => 1 | .OPTION => 2 | .LEVELONE_FUTURES => 3 | .LEVELONE_FOREX => 4
    | .LEVELONE_FUTURES_OPTIONS => 5 | .NEWS_HEADLINE => 6 | .CHART_EQUITY => 7
    | .CHART_FUTURES => 8 | .CHART_OPTIONS => 9 | .TIMESALE_EQUITY => 10
    | .TIMESALE_FUTURES => 11 | .TIMESALE_OPTIONS => 12 | .ACTIVES_NASDAQ => 13
    | .ACTIVES_NYSE => 14 | .ACTIVES_OTCBB => 15 | .ACTIVES_OPTIONS => 16
  to_new_char_buffer_size := fun s => s.length + 1

/-- A proxy as the caller passes it to a create function, before anything was
written to it. -/
def blank_proxy : StreamingSubscription_C :=
  { obj := none, type_id := 0 }

/-- A quotes object with the symbol "SPY" and the single field code 0, as the
constructor builds it. -/
def sample_quotes_object : SymbolFieldSubscriptionImpl :=
  { _service := .QUOTE, _command := "SUBS",
    _parameters := [("fields", "0"), ("keys", "SPY")],
    _symbols := ["SPY"], _fields := [0], cls := .QuotesSubscriptionImpl }

/-- A live quotes handle: the proxy a successful quotes creation leaves behind,
tagged with the header's quotes identifier. -/
def sample_quotes_proxy (H : Header) : StreamingSubscription_C :=
  { obj := some (.symbol_field sample_quotes_object), type_id := H.TYPE_ID_SUB_QUOTES }

/-! ## Lemmas on characters and on `encode_symbol` -/

theorem toNat_ofNat_small (n : Nat) (h : n < 55296) : (Char.ofNat n).toNat = n := by
  have hv : n.isValidChar := Or.inl h
  simp only [Char.ofNat, hv, dite_true, Char.toNat, Char.ofNatAux]
  rfl

theorem toupper_toNat (c : Char) :
    (toupper c).toNat = if 97 ≤ c.toNat ∧ c.toNat ≤ 122 then c.toNat - 32 else c.toNat := by
  unfold toupper
  split
  · exact toNat_ofNat_small _ (by omega)
  · rfl

theorem char_eq_iff_toNat (a b : Char) : a = b ↔ a.toNat = b.toNat := by
  constructor
  · intro h; rw [h]
  · intro h
    have := congrArg Char.ofNat h
    simpa using this

theorem R_none (c : Char) (h1 : c ≠ '.') (h2 : c ≠ '-') (h3 : c ≠ '+') : R c = none := by
  unfold R
  split <;> simp_all

theorem toupper_eq_plus (c : Char) : toupper c = '+' ↔ c = '+' := by
  rw [char_eq_iff_toNat, char_eq_iff_toNat c, toupper_toNat]
  have : ('+' : Char).toNat = 43 := rfl
  rw [this]
  split <;> omega

theorem R_toupper (c : Char) : R (toupper c) = R c := by
  by_cases h : 97 ≤ c.toNat ∧ c.toNat ≤ 122
  · have hu := toupper_toNat c
    rw [if_pos h] at hu
    rw [R_none (toupper c), R_none c]
    all_goals
      rw [Ne, char_eq_iff_toNat]
      first
        | (rw [hu]; simp; omega)
        | (simp; omega)
  · rw [toupper, if_neg h]

theorem toupper_idem (c : Char) : toupper (toupper c) = toupper c := by
  rw [char_eq_iff_toNat, toupper_toNat (toupper c), toupper_toNat]
  split_ifs <;> omega

/-- The outcome of `encode_symbol` on a string given as its characters before the
last two, its second-to-last and its last character. -/
theorem encode_symbol_snoc2 (pre : List Char) (c2 c1 : Char) :
    encode_symbol (String.mk (pre ++ [c2, c1])) =
      match R c2 with
      | some r => String.mk (pre.map toupper) ++ r ++ String.singleton (toupper c1)
      | none =>
        if c1 = '+' then String.mk (pre.map toupper ++ [toupper c2]) ++ "/WS"
        else String.mk ((pre ++ [c2, c1]).map toupper) := by
  have hlen : ¬ (pre ++ [c2, c1]).length < 2 := by simp
  have e2 : ∀ h, (List.map toupper (pre ++ [c2, c1])).get ⟨(pre ++ [c2, c1]).length - 2, h⟩
      = toupper c2 := by
    intro h
    simp [List.get_eq_getElem, List.getElem_append_right]
  have e1 : ∀ h, (List.map toupper (pre ++ [c2, c1])).get ⟨(pre ++ [c2, c1]).length - 1, h⟩
      = toupper c1 := by
    intro h
    simp [List.get_eq_getElem, List.getElem_append_right]
  have t2 : List.take ((pre ++ [c2, c1]).length - 2) (List.map toupper (pre ++ [c2, c1]))
      = pre.map toupper := by
    simp
  have d1 : (List.map toupper (pre ++ [c2, c1])).dropLast = pre.map toupper ++ [toupper c2] := by
    simp [List.dropLast_append_cons]
  unfold encode_symbol string_toupper
  simp only [hlen, dite_false, e2, e1, t2, d1, R_toupper, toupper_eq_plus]

/-- A string shorter than two characters is returned as it was passed. -/
theorem encode_symbol_short (s : String) (h : s.data.length < 2) : encode_symbol s = s := by
  unfold encode_symbol
  simp only [h, dite_true]

/-! ## Lemmas on the ordered containers -/

theorem chars_lt_irrefl (a : List Char) : chars_lt a a = false := by
  induction a with
  | nil => rfl
  | cons x xs ih => simp [chars_lt, ih]

theorem chars_lt_trans (a b c : List Char) :
    chars_lt a b = true → chars_lt b c = true → chars_lt a c = true := by
  induction a generalizing b c with
  | nil =>
    cases b <;> cases c <;> simp [chars_lt]
  | cons x xs ih =>
    cases b with
    | nil => simp [chars_lt]
    | cons y ys =>
      cases c with
      | nil => simp [chars_lt]
      | cons z zs =>
        simp only [chars_lt]
        intro h1 h2
        split_ifs at h1 h2 with p1 p2 p3 p4 p5 p6
        all_goals first
          | (rw [if_pos (by omega)])
          | (rw [if_neg (by omega), if_neg (by omega)]
             exact ih ys zs h1 h2)

theorem chars_lt_tri (a b : List Char) :
    chars_lt a b = false → chars_lt b a = false → a = b := by
  induction a generalizing b with
  | nil => cases b <;> simp [chars_lt]
  | cons x xs ih =>
    cases b with
    | nil => simp [chars_lt]
    | cons y ys =>
      simp only [chars_lt]
      intro h1 h2
      split_ifs at h1 h2 with p1 p2
      have e : x = y := (char_eq_iff_toNat x y).2 (by omega)
      rw [e, ih ys h1 h2]

theorem string_lt_strictTotal : StrictTotal string_lt where
  irrefl a := chars_lt_irrefl a.data
  trans a b c := chars_lt_trans a.data b.data c.data
  tri a b h1 h2 := String.ext (chars_lt_tri a.data b.data h1 h2)

theorem int_lt_strictTotal : StrictTotal int_lt where
  irrefl a := by simp [int_lt]
  trans a b c := by simp only [int_lt, decide_eq_true_eq]; omega
  tri a b := by simp only [int_lt, decide_eq_false_iff_not]; omega

theorem set_insert_mem {α : Type} {lt : α → α → Bool} (hlt : StrictTotal lt) (x y : α)
    (l : List α) : y ∈ set_insert lt x l ↔ y = x ∨ y ∈ l := by
  induction l with
  | nil => simp [set_insert]
  | cons z zs ih =>
    unfold set_insert
    split_ifs with h1 h2
    · simp
    · simp only [List.mem_cons, ih]
      tauto
    · have e : x = z := hlt.tri x z (by simpa using h1) (by simpa using h2)
      subst e
      simp

theorem set_insert_ascending {α : Type} {lt : α → α → Bool} (hlt : StrictTotal lt) (x : α)
    (l : List α) (hl : Ascending lt l) : Ascending lt (set_insert lt x l) := by
  induction l with
  | nil => simp [set_insert, Ascending]
  | cons z zs ih =>
    unfold Ascending at hl ⊢
    rw [List.pairwise_cons] at hl
    unfold set_insert
    split_ifs with h1 h2
    · rw [List.pairwise_cons]
      refine ⟨?_, List.pairwise_cons.2 hl⟩
      intro a ha
      rcases List.mem_cons.1 ha with e | ha
      · rw [e]; exact h1
      · exact hlt.trans x z a h1 (hl.1 a ha)
    · rw [List.pairwise_cons]
      refine ⟨?_, ih hl.2⟩
      intro a ha
      rcases (set_insert_mem hlt x a zs).1 ha with e | ha
      · rw [e]; exact h2
      · exact hl.1 a ha
    · exact List.pairwise_cons.2 hl

theorem foldl_insert_mem {α : Type} {lt : α → α → Bool} (hlt : StrictTotal lt)
    (l acc : List α) (y : α) :
    y ∈ l.foldl (fun s x => set_insert lt x s) acc ↔ y ∈ acc ∨ y ∈ l := by
  induction l generalizing acc with
  | nil => simp
  | cons x xs ih =>
    rw [List.foldl_cons, ih, set_insert_mem hlt, List.mem_cons]
    tauto

theorem foldl_insert_ascending {α : Type} {lt : α → α → Bool} (hlt : StrictTotal lt)
    (l acc : List α) (hacc : Ascending lt acc) :
    Ascending lt (l.foldl (fun s x => set_insert lt x s) acc) := by
  induction l generalizing acc with
  | nil => exact hacc
  | cons x xs ih =>
    rw [List.foldl_cons]
    exact ih _ (set_insert_ascending hlt x acc hacc)

/-- The set built from a buffer holds exactly the buffer's elements. -/
theorem buffers_to_set_mem {α : Type} {lt : α → α → Bool} (hlt : StrictTotal lt)
    (l : List α) (y : α) : y ∈ buffers_to_set lt l ↔ y ∈ l := by
  simp [buffers_to_set, foldl_insert_mem hlt]

/-- The set built from a buffer iterates in strictly ascending order. -/
theorem buffers_to_set_ascending {α : Type} {lt : α → α → Bool} (hlt : StrictTotal lt)
    (l : List α) : Ascending lt (buffers_to_set lt l) :=
  foldl_insert_ascending hlt l [] List.Pairwise.nil

theorem buffers_to_set_eq_nil {α : Type} {lt : α → α → Bool} (hlt : StrictTotal lt)
    (l : List α) : buffers_to_set lt l = [] ↔ l = [] := by
  constructor
  · intro h
    cases l with
    | nil => rfl
    | cons x xs =>
      have := (buffers_to_set_mem hlt (x :: xs) x).2 (List.mem_cons_self x xs)
      rw [h] at this
      exact absurd this (List.not_mem_nil x)
  · intro h
    rw [h]
    rfl

theorem ascending_nodup {α : Type} {lt : α → α → Bool} (hlt : StrictTotal lt)
    (l : List α) (h : Ascending lt l) : l.Nodup := by
  unfold Ascending at h
  refine List.Pairwise.imp ?_ h
  intro a b hab e
  rw [e, hlt.irrefl] at hab
  exact absurd hab (by simp)

/-! ## Lemmas on construction and on the create function -/

theorem map_of_fields_keys (a b : String) :
    map_of [("fields", a), ("keys", b)] = [("fields", a), ("keys", b)] := by
  have h1 : string_lt "keys" "fields" = false := by decide
  have h2 : string_lt "fields" "keys" = true := by decide
  simp [map_of, map_insert, h1, h2]

theorem find_fields (a b : String) :
    ParamMap.find [("fields", a), ("keys", b)] "fields" = some a := by
  simp [ParamMap.find, List.find?]

theorem find_keys (a b : String) :
    ParamMap.find [("fields", a), ("keys", b)] "keys" = some b := by
  have h : (("fields" : String) == "keys") = false := by decide
  simp [ParamMap.find, List.find?, h]

/-- On a non-empty symbol set and a non-empty field set the constructor of a
symbol+field class returns the object written out here. -/
theorem ctor_ok (T : SymbolFieldImplTy) (symbols : List String) (fields : List Int)
    (hs : symbols ≠ []) (hf : fields ≠ []) :
    T.ctor symbols fields = .ok
      { _service := T.service, _command := "SUBS",
        _parameters :=
          [("fields", util_join (fields.map (fun f => to_string (to_unsigned f))) ','),
           ("keys", util_join (symbols.map encode_symbol) ',')],
        _symbols := util_toupper symbols, _fields := fields, cls := T } := by
  have hs' : symbols.isEmpty = false := by
    cases symbols with
    | nil => exact absurd rfl hs
    | cons a l => rfl
  have hf' : fields.isEmpty = false := by
    cases fields with
    | nil => exact absurd rfl hf
    | cons a l => rfl
  simp [SymbolFieldImplTy.ctor, SubscriptionBySymbolBaseImpl.ctor, build_paramaters, hs', hf',
    map_of_fields_keys]

theorem ctor_no_symbols (T : SymbolFieldImplTy) (fields : List Int) :
    T.ctor [] fields = .error (.ValueException "no symbols") := by
  simp [SymbolFieldImplTy.ctor, SubscriptionBySymbolBaseImpl.ctor, build_paramaters]

theorem ctor_no_fields (T : SymbolFieldImplTy) (symbols : List String) (hs : symbols ≠ []) :
    T.ctor symbols [] = .error (.ValueException "no fields") := by
  have hs' : symbols.isEmpty = false := by
    cases symbols with
    | nil => exact absurd rfl hs
    | cons a l => rfl
  simp [SymbolFieldImplTy.ctor, SubscriptionBySymbolBaseImpl.ctor, build_paramaters, hs']

/-- The create function past its two count checks and its field validation: what
is left is the constructor call on the two sets. -/
theorem create_checked (H : Header) (T : SymbolFieldImplTy) (symbols : List String)
    (fields : List Int) (p : StreamingSubscription_C)
    (hns : symbols.length ≤ H.SUBSCRIPTION_MAX_SYMBOLS)
    (hnf : fields.length ≤ H.SUBSCRIPTION_MAX_FIELDS)
    (hv : ∀ f ∈ fields, T.is_valid_field H f = true) :
    create_symbol_field_subscription H T (some symbols) (some fields) (some p) =
      match T.ctor (buffers_to_set string_lt symbols) (buffers_to_set int_lt fields) with
      | .error e => { err := some e, psub := some (kill_proxy p) }
      | .ok obj =>
        { err := none,
          psub := some { obj := some (.symbol_field obj), type_id := T.TYPE_ID_LOW H } } := by
  have h1 : ¬ symbols.length > H.SUBSCRIPTION_MAX_SYMBOLS := by omega
  have h2 : ¬ fields.length > H.SUBSCRIPTION_MAX_FIELDS := by omega
  have h3 : (fields.any (fun f => !T.is_valid_field H f)) = false := by
    rw [List.any_eq_false]
    intro f hf
    simp [hv f hf]
  simp only [create_symbol_field_subscription, h1, h2, h3, if_false, Bool.false_eq_true]

/-- The create function succeeds exactly when both counts are within their
limits, every field code is valid for the class, and neither array is empty. -/
theorem create_err_none_iff (H : Header) (T : SymbolFieldImplTy) (symbols : List String)
    (fields : List Int) (p : StreamingSubscription_C) :
    (create_symbol_field_subscription H T (some symbols) (some fields) (some p)).err = none ↔
      symbols.length ≤ H.SUBSCRIPTION_MAX_SYMBOLS ∧ fields.length ≤ H.SUBSCRIPTION_MAX_FIELDS
        ∧ (∀ f ∈ fields, T.is_valid_field H f = true) ∧ symbols ≠ [] ∧ fields ≠ [] := by
  constructor
  · intro h
    by_cases h1 : symbols.length > H.SUBSCRIPTION_MAX_SYMBOLS
    · simp [create_symbol_field_subscription, h1, HANDLE_ERROR_EX] at h
    by_cases h2 : fields.length > H.SUBSCRIPTION_MAX_FIELDS
    · simp [create_symbol_field_subscription, h1, h2, HANDLE_ERROR_EX] at h
    by_cases h3 : (fields.any (fun f => !T.is_valid_field H f)) = true
    · simp only [create_symbol_field_subscription, h1, h2, h3, if_true, if_false,
        HANDLE_ERROR_EX] at h
      exact absurd h (by simp)
    have hv : ∀ f ∈ fields, T.is_valid_field H f = true := by
      intro f hf
      by_contra hc
      apply h3
      rw [List.any_eq_true]
      exact ⟨f, hf, by simpa using hc⟩
    rw [create_checked H T symbols fields p (by omega) (by omega) hv] at h
    refine ⟨by omega, by omega, hv, ?_, ?_⟩
    · intro e
      rw [e] at h
      have : buffers_to_set string_lt ([] : List String) = [] := rfl
      rw [this, ctor_no_symbols] at h
      exact absurd h (by simp)
    · intro e
      rw [e] at h
      have : buffers_to_set int_lt ([] : List Int) = [] := rfl
      rw [this] at h
      by_cases hs : buffers_to_set string_lt symbols = []
      · rw [hs, ctor_no_symbols] at h
        exact absurd h (by simp)
      · rw [ctor_no_fields T _ hs] at h
        exact absurd h (by simp)
  · rintro ⟨h1, h2, hv, hs, hf⟩
    rw [create_checked H T symbols fields p h1 h2 hv,
      ctor_ok T _ _ (mt (buffers_to_set_eq_nil string_lt_strictTotal symbols).1 hs)
        (mt (buffers_to_set_eq_nil int_lt_strictTotal fields).1 hf)]

/-- What a successful create leaves in the proxy. -/
theorem create_ok (H : Header) (T : SymbolFieldImplTy) (symbols : List String)
    (fields : List Int) (p : StreamingSubscription_C)
    (hok : (create_symbol_field_subscription H T (some symbols) (some fields) (some p)).err
      = none) :
    create_symbol_field_subscription H T (some symbols) (some fields) (some p) =
      { err := none,
        psub := some
          { obj := some (.symbol_field
              { _service := T.service, _command := "SUBS",
                _parameters :=
                  [("fields", util_join ((buffers_to_set int_lt fields).map
                      (fun f => to_string (to_unsigned f))) ','),
                   ("keys", util_join ((buffers_to_set string_lt symbols).map
                      encode_symbol) ',')],
                _symbols := util_toupper (buffers_to_set string_lt symbols),
                _fields := buffers_to_set int_lt fields, cls := T }),
            type_id := T.TYPE_ID_LOW H } } := by
  obtain ⟨h1, h2, hv, hs, hf⟩ := (create_err_none_iff H T symbols fields p).1 hok
  rw [create_checked H T symbols fields p h1 h2 hv,
    ctor_ok T _ _ (mt (buffers_to_set_eq_nil string_lt_strictTotal symbols).1 hs)
      (mt (buffers_to_set_eq_nil int_lt_strictTotal fields).1 hf)]

/-! ## Lemmas on joined strings -/

theorem digitChar_ne_comma (n : Nat) : Nat.digitChar (n % 10) ≠ ',' := by
  have h : ∀ m, m < 10 → Nat.digitChar m ≠ ',' := by decide
  exact h _ (Nat.mod_lt _ (by decide))

theorem toDigitsCore_no_comma (f n : Nat) (ds : List Char) (h : ',' ∉ ds) :
    ',' ∉ Nat.toDigitsCore 10 f n ds := by
  induction f generalizing n ds with
  | zero => simpa [Nat.toDigitsCore] using h
  | succ f ih =>
    have hd : ',' ∉ Nat.digitChar (n % 10) :: ds := by
      intro hm
      rcases List.mem_cons.1 hm with e | hm
      · exact digitChar_ne_comma _ e.symm
      · exact h hm
    simp only [Nat.toDigitsCore]
    split_ifs
    · exact hd
    · exact ih _ _ hd

/-- A field code in the range of `unsigned int` is converted to itself. -/
theorem to_unsigned_of_nonneg (c : Int) (h0 : 0 ≤ c) (h1 : c < 4294967296) :
    to_unsigned c = c.toNat := by
  unfold to_unsigned
  rw [Int.emod_eq_of_lt h0 h1]

/-- The decimal rendering of a number holds no comma. -/
theorem to_string_no_comma (n : Nat) : ',' ∉ (to_string n).data := by
  exact toDigitsCore_no_comma _ _ [] (List.not_mem_nil _)

theorem util_join_data (l : List String) (delim : Char) :
    (util_join l delim).data = [delim].intercalate (l.map String.data) := by
  induction l with
  | nil => rfl
  | cons a t ih =>
    cases t with
    | nil => simp [util_join, List.intercalate]
    | cons b t' =>
      rw [util_join]
      · simp only [String.data_append, ih]
        simp [List.intercalate, String.singleton]
      · simp

/-- Splitting a joined string at the delimiter gives the entries back when no
entry holds the delimiter. -/
theorem splitOn_util_join (l : List String) (delim : Char) (hl : l ≠ [])
    (hd : ∀ s ∈ l, delim ∉ s.data) :
    (util_join l delim).data.splitOn delim = l.map String.data := by
  rw [util_join_data]
  apply List.splitOn_intercalate
  · intro x hx
    obtain ⟨s, hs, e⟩ := List.mem_map.1 hx
    rw [← e]
    exact hd s hs
  · simpa using hl

/-! ## Lemmas on decimal numerals -/

theorem digitChar_digit : ∀ m, m < 10 →
    (Nat.digitChar m).isDigit = true ∧ (Nat.digitChar m).toNat - 48 = m
      ∧ (Nat.digitChar m = '0' → m = 0) := by
  decide

theorem toDigitsCore_append (f n : Nat) (ds : List Char) :
    Nat.toDigitsCore 10 f n ds = Nat.toDigitsCore 10 f n [] ++ ds := by
  induction f generalizing n ds with
  | zero => simp [Nat.toDigitsCore]
  | succ f ih =>
    simp only [Nat.toDigitsCore]
    split_ifs
    · simp
    · rw [ih (n / 10) (Nat.digitChar (n % 10) :: ds), ih (n / 10) [Nat.digitChar (n % 10)]]
      simp

theorem decimal_value_snoc (xs : List Char) (c : Char) :
    decimal_value (xs ++ [c]) = 10 * decimal_value xs + (c.toNat - 48) := by
  simp [decimal_value, List.foldl_append]

/-- The digits that `Nat.toDigitsCore` writes with enough fuel are the decimal
numeral of the number: digits only, no leading zero except for 0 itself, and the
number as value. -/
theorem toDigitsCore_decimal (f : Nat) : ∀ n, n < f →
    Nat.toDigitsCore 10 f n [] ≠ []
      ∧ (∀ ch ∈ Nat.toDigitsCore 10 f n [], ch.isDigit = true)
      ∧ ((Nat.toDigitsCore 10 f n []).head? = some '0' → n = 0)
      ∧ decimal_value (Nat.toDigitsCore 10 f n []) = n := by
  induction f with
  | zero =>
    intro n h
    omega
  | succ f ih =>
    intro n hn
    have hd := digitChar_digit (n % 10) (Nat.mod_lt _ (by decide))
    simp only [Nat.toDigitsCore]
    split_ifs with h0
    · have hn10 : n % 10 = n := by omega
      rw [hn10] at hd ⊢
      refine ⟨by simp, ?_, ?_, ?_⟩
      · intro ch hch
        rw [List.mem_singleton.1 hch]
        exact hd.1
      · intro hh
        simp only [List.head?_cons, Option.some.injEq] at hh
        exact hd.2.2 hh
      · simp [decimal_value, hd.2.1]
    · have hlt : n / 10 < f := by omega
      obtain ⟨h1, h2, h3, h4⟩ := ih (n / 10) hlt
      rw [toDigitsCore_append]
      refine ⟨by simp [h1], ?_, ?_, ?_⟩
      · intro ch hch
        rcases List.mem_append.1 hch with hm | hm
        · exact h2 ch hm
        · rw [List.mem_singleton.1 hm]
          exact hd.1
      · intro hh
        rw [List.head?_append_of_ne_nil _ h1] at hh
        exact absurd (h3 hh) h0
      · rw [decimal_value_snoc, h4, hd.2.1]
        omega

/-- The function `to_string` writes the decimal numeral of its argument. -/
theorem to_string_decimal (n : Nat) :
    (to_string n).data ≠ []
      ∧ (∀ ch ∈ (to_string n).data, ch.isDigit = true)
      ∧ ((to_string n).data.head? = some '0' → n = 0)
      ∧ decimal_value (to_string n).data = n :=
  toDigitsCore_decimal (n + 1) n (Nat.lt_succ_self n)

/-! ## The symbol encoder (C1 - C4) -/

/-- C1: for a symbol of at least two characters whose second-to-last character
`c2` is '.', '-' or '+', `encode_symbol` returns the uppercased characters before
the last two, then the replacement ("/" for '.', "p" for '-', "/WS/" for '+'), then
the uppercased last character; the last character is arbitrary, '+' included. -/
theorem encode_symbol_suffix_table (s : String) (pre : List Char) (c2 c1 : Char)
    (hs : s.data = pre ++ [c2, c1]) (hc2 : c2 = '.' ∨ c2 = '-' ∨ c2 = '+') :
    encode_symbol s =
      String.mk (pre.map toupper)
        ++ (if c2 = '.' then "/" else if c2 = '-' then "p" else "/WS/")
        ++ String.singleton (toupper c1) := by
  have hs' : s = String.mk (pre ++ [c2, c1]) := String.ext hs
  rw [hs', encode_symbol_snoc2]
  rcases hc2 with h | h | h <;> subst h <;> rfl

/-- Witness for C1: "t.a", "brk-b", and a symbol whose last character is '+'. -/
theorem encode_symbol_suffix_table_witness :
    encode_symbol "t.a" = "T/A" ∧ encode_symbol "brk-b" = "BRKpB"
      ∧ encode_symbol "a++" = "A/WS/+" :=
  ⟨encode_symbol_suffix_table "t.a" ['t'] '.' 'a' rfl (Or.inl rfl),
   encode_symbol_suffix_table "brk-b" ['b', 'r', 'k'] '-' 'b' rfl (Or.inr (Or.inl rfl)),
   encode_symbol_suffix_table "a++" ['a'] '+' '+' rfl (Or.inr (Or.inr rfl))⟩

/-- C2, evaluated on the code: a one-character symbol is returned before the
uppercasing loop runs, so "a" and "f" come back in lower case, not as "A" and
"F". -/
theorem encode_symbol_single_char_not_uppercased :
    encode_symbol "a" = "a" ∧ encode_symbol "f" = "f"
      ∧ encode_symbol "a" ≠ string_toupper "a" ∧ string_toupper "a" = "A" := by
  decide

/-- C3: for a symbol of at least two characters whose second-to-last character is
none of '.', '-', '+' and whose last character is '+', `encode_symbol` returns the
uppercased symbol without its last character, followed by "/WS". -/
theorem encode_symbol_trailing_plus (s : String) (pre : List Char) (c2 c1 : Char)
    (hs : s.data = pre ++ [c2, c1]) (hc2 : c2 ≠ '.' ∧ c2 ≠ '-' ∧ c2 ≠ '+')
    (hc1 : c1 = '+') :
    encode_symbol s = String.mk ((pre ++ [c2]).map toupper) ++ "/WS"
      ∧ pre ++ [c2] = s.data.dropLast := by
  have hs' : s = String.mk (pre ++ [c2, c1]) := String.ext hs
  constructor
  · rw [hs', encode_symbol_snoc2, R_none c2 hc2.1 hc2.2.1 hc2.2.2]
    simp [hc1]
  · rw [hs]
    simp [List.dropLast_append_cons]

/-- Witness for C3: "spy+". -/
theorem encode_symbol_trailing_plus_witness :
    encode_symbol "spy+" = "SPY/WS" :=
  (encode_symbol_trailing_plus "spy+" ['s', 'p'] 'y' '+' rfl (by decide) rfl).1

/-- C4: for a symbol of at least two characters whose second-to-last character is
none of '.', '-', '+' and whose last character is not '+', `encode_symbol` returns
the symbol with every character uppercased: same length, the character at each
position being the `toupper` of the input's. -/
theorem encode_symbol_plain (s : String) (pre : List Char) (c2 c1 : Char)
    (hs : s.data = pre ++ [c2, c1]) (hc2 : c2 ≠ '.' ∧ c2 ≠ '-' ∧ c2 ≠ '+')
    (hc1 : c1 ≠ '+') :
    encode_symbol s = String.mk (s.data.map toupper)
      ∧ (encode_symbol s).data.length = s.data.length := by
  have hs' : s = String.mk (pre ++ [c2, c1]) := String.ext hs
  have h : encode_symbol s = String.mk (s.data.map toupper) := by
    rw [hs', encode_symbol_snoc2, R_none c2 hc2.1 hc2.2.1 hc2.2.2]
    simp [hc1]
  rw [h]
  simp

/-- Witness for C4: "spy". -/
theorem encode_symbol_plain_witness :
    encode_symbol "spy" = "SPY" :=
  (encode_symbol_plain "spy" ['s'] 'p' 'y' rfl (by decide) (by decide)).1

/-! ## The parameter map (C5, C6) -/

/-- C5 as stated fails on the symbol set {"BB", "aa"} (a `std::set` iterates it
in this order, 'B' being smaller than 'a'): the constructor writes the keys
"BB,AA", while the normalized strings in ascending order give "AA,BB". -/
theorem keys_not_in_normalized_order :
    Ascending string_lt ["BB", "aa"]
      ∧ (SymbolFieldImplTy.ctor .QuotesSubscriptionImpl ["BB", "aa"] [0]).toOption.map
          (fun o => o._parameters.find "keys") = some (some "BB,AA")
      ∧ util_join (buffers_to_set string_lt (["BB", "aa"].map encode_symbol)) ',' = "AA,BB"
      ∧ (SymbolFieldImplTy.ctor .QuotesSubscriptionImpl ["BB", "aa"] [0]).toOption.map
          (fun o => o._parameters.find "keys")
        ≠ some (some (util_join
            (buffers_to_set string_lt (["BB", "aa"].map encode_symbol)) ',')) := by
  refine ⟨?_, by decide, by decide, by decide⟩
  unfold Ascending
  decide

/-- C5, amended: after a successful symbol+field creation the value of "keys" is
`encode_symbol` applied to each distinct raw input symbol, joined by ',' in the
ascending order of the raw symbols (the iteration order of the input set). -/
theorem keys_in_raw_symbol_order (H : Header) (T : SymbolFieldImplTy) (symbols : List String)
    (fields : List Int) (p : StreamingSubscription_C)
    (hok : (create_symbol_field_subscription H T (some symbols) (some fields) (some p)).err
      = none) :
    ∃ obj raw,
      (create_symbol_field_subscription H T (some symbols) (some fields) (some p)).psub
          = some { obj := some (.symbol_field obj), type_id := T.TYPE_ID_LOW H }
        ∧ Ascending string_lt raw ∧ (∀ s, s ∈ raw ↔ s ∈ symbols)
        ∧ obj._parameters.find "keys" = some (util_join (raw.map encode_symbol) ',') := by
  rw [create_ok H T symbols fields p hok]
  exact ⟨_, buffers_to_set string_lt symbols, rfl,
    buffers_to_set_ascending string_lt_strictTotal symbols,
    buffers_to_set_mem string_lt_strictTotal symbols, find_keys _ _⟩

/-- Witness for C5 (amended): the symbols "spy", "t.a", "BRK-B", "spy" with one
field on the sample header. -/
theorem keys_in_raw_symbol_order_witness :
    ∃ obj raw,
      (create_symbol_field_subscription sample_header .QuotesSubscriptionImpl
          (some ["spy", "t.a", "BRK-B", "spy"]) (some [0]) (some blank_proxy)).psub
          = some { obj := some (.symbol_field obj),
                   type_id := SymbolFieldImplTy.QuotesSubscriptionImpl.TYPE_ID_LOW sample_header }
        ∧ Ascending string_lt raw ∧ (∀ s, s ∈ raw ↔ s ∈ ["spy", "t.a", "BRK-B", "spy"])
        ∧ obj._parameters.find "keys" = some (util_join (raw.map encode_symbol) ',') :=
  keys_in_raw_symbol_order sample_header .QuotesSubscriptionImpl ["spy", "t.a", "BRK-B", "spy"]
    [0] blank_proxy (by decide)

/-- C6: after a successful symbol+field creation the parameter map has exactly the
keys "fields" and "keys", and the value of "fields" is the distinct input field
codes in strictly ascending order, each converted to `unsigned int` and written by
`to_string`, joined by ','; splitting the value at ',' gives exactly these strings
back, so there is no leading or trailing separator. What `to_string` writes is
the decimal numeral of the number: a non-empty string of the digits '0' to '9',
without a leading '0' except for the number 0, written "0", whose value read as a
decimal number is the number. A code in the range of `unsigned int` (every
non-negative `int`) is written as itself. -/
theorem fields_parameter (H : Header) (T : SymbolFieldImplTy) (symbols : List String)
    (fields : List Int) (p : StreamingSubscription_C)
    (hok : (create_symbol_field_subscription H T (some symbols) (some fields) (some p)).err
      = none) :
    ∃ obj codes,
      (create_symbol_field_subscription H T (some symbols) (some fields) (some p)).psub
          = some { obj := some (.symbol_field obj), type_id := T.TYPE_ID_LOW H }
        ∧ obj._parameters.map Prod.fst = ["fields", "keys"]
        ∧ List.Pairwise (fun a b : Int => a < b) codes ∧ (∀ c, c ∈ codes ↔ c ∈ fields)
        ∧ obj._parameters.find "fields"
            = some (util_join (codes.map (fun c => to_string (to_unsigned c))) ',')
        ∧ (util_join (codes.map (fun c => to_string (to_unsigned c))) ',').data.splitOn ','
            = codes.map (fun c => (to_string (to_unsigned c)).data)
        ∧ (∀ n : Nat, (to_string n).data ≠ []
            ∧ (∀ ch ∈ (to_string n).data, ch.isDigit = true)
            ∧ ((to_string n).data.head? = some '0' → n = 0)
            ∧ decimal_value (to_string n).data = n)
        ∧ to_string 0 = "0"
        ∧ (∀ c, 0 ≤ c → c < 4294967296 → to_unsigned c = c.toNat) := by
  obtain ⟨_, _, _, _, hf⟩ := (create_err_none_iff H T symbols fields p).1 hok
  rw [create_ok H T symbols fields p hok]
  refine ⟨_, buffers_to_set int_lt fields, rfl, rfl, ?_,
    buffers_to_set_mem int_lt_strictTotal fields, find_fields _ _, ?_, to_string_decimal,
    rfl, to_unsigned_of_nonneg⟩
  · have h := buffers_to_set_ascending int_lt_strictTotal fields
    unfold Ascending at h
    refine List.Pairwise.imp ?_ h
    intro a b hab
    simpa [int_lt] using hab
  · rw [splitOn_util_join]
    · simp
    · simpa using mt (buffers_to_set_eq_nil int_lt_strictTotal fields).1 hf
    · intro s hs
      obtain ⟨c, _, e⟩ := List.mem_map.1 hs
      rw [← e]
      exact to_string_no_comma _

/-- Witness for C6: the field codes 3, 0, 3, 12 on the sample header. The map of
the created request is {"fields": "0,3,12", "keys": "SPY"}. -/
theorem fields_parameter_witness :
    (∃ obj codes,
      (create_symbol_field_subscription sample_header .QuotesSubscriptionImpl (some ["spy"])
          (some [3, 0, 3, 12]) (some blank_proxy)).psub
          = some { obj := some (.symbol_field obj),
                   type_id := SymbolFieldImplTy.QuotesSubscriptionImpl.TYPE_ID_LOW sample_header }
        ∧ obj._parameters.map Prod.fst = ["fields", "keys"]
        ∧ List.Pairwise (fun a b : Int => a < b) codes ∧ (∀ c, c ∈ codes ↔ c ∈ [3, 0, 3, 12])
        ∧ obj._parameters.find "fields"
            = some (util_join (codes.map (fun c => to_string (to_unsigned c))) ',')
        ∧ (util_join (codes.map (fun c => to_string (to_unsigned c))) ',').data.splitOn ','
            = codes.map (fun c => (to_string (to_unsigned c)).data)
        ∧ (∀ n : Nat, (to_string n).data ≠ []
            ∧ (∀ ch ∈ (to_string n).data, ch.isDigit = true)
            ∧ ((to_string n).data.head? = some '0' → n = 0)
            ∧ decimal_value (to_string n).data = n)
        ∧ to_string 0 = "0"
        ∧ (∀ c, 0 ≤ c → c < 4294967296 → to_unsigned c = c.toNat))
      ∧ ((create_symbol_field_subscription sample_header .QuotesSubscriptionImpl (some ["spy"])
          (some [3, 0, 3, 12]) (some blank_proxy)).psub.bind (fun q => q.obj)).map
            (fun o => o.base._parameters)
          = some [("fields", "0,3,12"), ("keys", "SPY")]
      ∧ to_string 12 = "12" ∧ to_string 4294967295 = "4294967295"
      ∧ to_string (to_unsigned (-1)) = "4294967295" :=
  ⟨fields_parameter sample_header .QuotesSubscriptionImpl ["spy"] [3, 0, 3, 12] blank_proxy
    (by decide), by decide, by decide, by decide, by decide⟩

/-! ## Empty inputs (C9, C10) -/

/-- C9 as stated fails, whatever the header's limits are: with zero symbols and
one field code more than `SUBSCRIPTION_MAX_FIELDS` the count check fails first and
the error is not "no symbols". -/
theorem zero_symbols_not_always_no_symbols :
    ¬ ∃ H : Header, ∀ (T : SymbolFieldImplTy) (fields : List Int) (p : StreamingSubscription_C),
        (create_symbol_field_subscription H T (some []) (some fields) (some p)).err
          = some (.ValueException "no symbols") := by
  rintro ⟨H, h⟩
  have h' := h .QuotesSubscriptionImpl (List.replicate (H.SUBSCRIPTION_MAX_FIELDS + 1) 0)
    blank_proxy
  simp [create_symbol_field_subscription, HANDLE_ERROR_EX] at h'

/-- C9, amended: creating a symbol+field subscription with zero symbols always
fails and leaves the proxy killed (no owned object); the error is the "no symbols"
`ValueException` exactly when the field array is non-null, holds at most
`SUBSCRIPTION_MAX_FIELDS` codes and every code is valid for the class (otherwise
an earlier check reports its own error). -/
theorem create_zero_symbols (H : Header) (T : SymbolFieldImplTy)
    (fields : Option (List Int)) (p : StreamingSubscription_C) :
    (create_symbol_field_subscription H T (some []) fields (some p)).err ≠ none
      ∧ (create_symbol_field_subscription H T (some []) fields (some p)).psub
          = some (kill_proxy p)
      ∧ (kill_proxy p).obj = none
      ∧ ((create_symbol_field_subscription H T (some []) fields (some p)).err
            = some (.ValueException "no symbols") ↔
          ∃ fs, fields = some fs ∧ fs.length ≤ H.SUBSCRIPTION_MAX_FIELDS
            ∧ ∀ f ∈ fs, T.is_valid_field H f = true) := by
  cases fields with
  | none =>
    simp [create_symbol_field_subscription, HANDLE_ERROR_EX, kill_proxy, null_pointer_error]
  | some fs =>
    by_cases h2 : fs.length > H.SUBSCRIPTION_MAX_FIELDS
    · have h2' : ¬ fs.length ≤ H.SUBSCRIPTION_MAX_FIELDS := by omega
      simp [create_symbol_field_subscription, HANDLE_ERROR_EX, kill_proxy, h2, h2']
    by_cases h3 : (fs.any (fun f => !T.is_valid_field H f)) = true
    · have h3' : ¬ ∀ f ∈ fs, T.is_valid_field H f = true := by
        intro hv
        rw [List.any_eq_true] at h3
        obtain ⟨f, hf, hb⟩ := h3
        rw [hv f hf] at hb
        exact absurd hb (by simp)
      have hr : create_symbol_field_subscription H T (some []) (some fs) (some p)
          = HANDLE_ERROR_EX (.ValueException "invalid FieldType value") p := by
        simp only [create_symbol_field_subscription, h2, h3, if_true, if_false,
          List.length_nil, gt_iff_lt, Nat.not_lt_zero]
      rw [hr]
      refine ⟨by simp [HANDLE_ERROR_EX], rfl, rfl, ?_⟩
      simp only [HANDLE_ERROR_EX]
      constructor
      · intro h
        exact absurd h (by simp)
      · rintro ⟨fs', e, _, hv⟩
        cases e
        exact absurd hv h3'
    · have hv : ∀ f ∈ fs, T.is_valid_field H f = true := by
        intro f hf
        by_contra hc
        apply h3
        rw [List.any_eq_true]
        exact ⟨f, hf, by simpa using hc⟩
      have hb : buffers_to_set string_lt ([] : List String) = [] := rfl
      rw [create_checked H T [] fs p (Nat.zero_le _) (by omega) hv, hb, ctor_no_symbols]
      refine ⟨by simp, rfl, rfl, ?_⟩
      constructor
      · intro _
        exact ⟨fs, rfl, by omega, hv⟩
      · intro _
        rfl

/-- C10 as stated fails, whatever the header's limits are: with zero fields and
zero symbols the symbols are checked first and the error is "no symbols", not
"no fields". -/
theorem zero_fields_not_always_no_fields :
    ¬ ∃ H : Header, ∀ (T : SymbolFieldImplTy) (symbols : List String)
        (p : StreamingSubscription_C),
        (create_symbol_field_subscription H T (some symbols) (some []) (some p)).err
          = some (.ValueException "no fields") := by
  rintro ⟨H, h⟩
  have h' := h .QuotesSubscriptionImpl [] blank_proxy
  have hb : buffers_to_set string_lt ([] : List String) = [] := rfl
  rw [create_checked H _ [] [] blank_proxy (Nat.zero_le _) (Nat.zero_le _) (by simp), hb,
    ctor_no_symbols] at h'
  exact absurd h' (by simp)

/-- C10, amended: creating a symbol+field subscription with zero field codes always
fails and leaves the proxy killed (no owned object); the error is the "no fields"
`ValueException` exactly when the symbol array is non-null, non-empty and holds at
most `SUBSCRIPTION_MAX_SYMBOLS` symbols (otherwise an earlier check reports its own
error). -/
theorem create_zero_fields (H : Header) (T : SymbolFieldImplTy)
    (symbols : Option (List String)) (p : StreamingSubscription_C) :
    (create_symbol_field_subscription H T symbols (some []) (some p)).err ≠ none
      ∧ (create_symbol_field_subscription H T symbols (some []) (some p)).psub
          = some (kill_proxy p)
      ∧ (kill_proxy p).obj = none
      ∧ ((create_symbol_field_subscription H T symbols (some []) (some p)).err
            = some (.ValueException "no fields") ↔
          ∃ ss, symbols = some ss ∧ ss ≠ [] ∧ ss.length ≤ H.SUBSCRIPTION_MAX_SYMBOLS) := by
  cases symbols with
  | none =>
    simp [create_symbol_field_subscription, HANDLE_ERROR_EX, kill_proxy, null_pointer_error]
  | some ss =>
    by_cases h1 : ss.length > H.SUBSCRIPTION_MAX_SYMBOLS
    · have h1' : ¬ ss.length ≤ H.SUBSCRIPTION_MAX_SYMBOLS := by omega
      simp [create_symbol_field_subscription, HANDLE_ERROR_EX, kill_proxy, h1, h1']
    · have hb : buffers_to_set int_lt ([] : List Int) = [] := rfl
      rw [create_checked H T ss [] p (by omega) (Nat.zero_le _) (by simp), hb]
      by_cases hs : ss = []
      · subst hs
        have hb' : buffers_to_set string_lt ([] : List String) = [] := rfl
        rw [hb', ctor_no_symbols]
        simp [kill_proxy]
      · rw [ctor_no_fields T _ (mt (buffers_to_set_eq_nil string_lt_strictTotal ss).1 hs)]
        refine ⟨by simp, rfl, rfl, ?_⟩
        constructor
        · intro _
          exact ⟨ss, rfl, hs, by omega⟩
        · intro _
          rfl

/-! ## Field validity and the count checks (C11, C12) -/

/-- C11 as stated fails for every header and class that rejects some code `c`:
with zero symbols and `SUBSCRIPTION_MAX_FIELDS + 1` copies of `c` the field count
check fails first, and the error is not the invalid-field error. -/
theorem invalid_field_not_always_invalid_field_error :
    ¬ ∃ (H : Header) (T : SymbolFieldImplTy),
        (∃ c, T.is_valid_field H c = false)
          ∧ ∀ (symbols : List String) (fields : List Int) (p : StreamingSubscription_C),
              (∃ f, f ∈ fields ∧ T.is_valid_field H f = false) →
                (create_symbol_field_subscription H T (some symbols) (some fields) (some p)).err
                  = some (.ValueException "invalid FieldType value") := by
  rintro ⟨H, T, ⟨c, hc⟩, h⟩
  have h' := h [] (List.replicate (H.SUBSCRIPTION_MAX_FIELDS + 1) c) blank_proxy
    ⟨c, by simp, hc⟩
  simp [create_symbol_field_subscription, HANDLE_ERROR_EX] at h'

/-- C11, amended: if any input field code fails the class's `is_valid_field`,
creation fails with a `ValueException`, and the proxy is killed (no object); the
error is the invalid-field error exactly when both counts are within their
limits. Every field code held by a successfully created request satisfies the
class's `is_valid_field`. -/
theorem invalid_field_rejected (H : Header) (T : SymbolFieldImplTy) (symbols : List String)
    (fields : List Int) (p : StreamingSubscription_C) :
    ((∃ f, f ∈ fields ∧ T.is_valid_field H f = false) →
        (∃ msg, (create_symbol_field_subscription H T (some symbols) (some fields)
            (some p)).err = some (.ValueException msg))
          ∧ (create_symbol_field_subscription H T (some symbols) (some fields) (some p)).psub
              = some (kill_proxy p)
          ∧ (kill_proxy p).obj = none
          ∧ ((create_symbol_field_subscription H T (some symbols) (some fields) (some p)).err
                = some (.ValueException "invalid FieldType value") ↔
              symbols.length ≤ H.SUBSCRIPTION_MAX_SYMBOLS
                ∧ fields.length ≤ H.SUBSCRIPTION_MAX_FIELDS))
      ∧ ((create_symbol_field_subscription H T (some symbols) (some fields) (some p)).err
            = none →
          ∃ obj,
            (create_symbol_field_subscription H T (some symbols) (some fields) (some p)).psub
                = some { obj := some (.symbol_field obj), type_id := T.TYPE_ID_LOW H }
              ∧ ∀ f, f ∈ obj.get_fields → T.is_valid_field H f = true) := by
  constructor
  · rintro ⟨f, hf, hbad⟩
    have hany : (fields.any (fun f => !T.is_valid_field H f)) = true := by
      rw [List.any_eq_true]
      exact ⟨f, hf, by simp [hbad]⟩
    by_cases h1 : symbols.length > H.SUBSCRIPTION_MAX_SYMBOLS
    · have h1' : ¬ symbols.length ≤ H.SUBSCRIPTION_MAX_SYMBOLS := by omega
      simp [create_symbol_field_subscription, HANDLE_ERROR_EX, kill_proxy, h1, h1']
    by_cases h2 : fields.length > H.SUBSCRIPTION_MAX_FIELDS
    · have h2' : ¬ fields.length ≤ H.SUBSCRIPTION_MAX_FIELDS := by omega
      simp [create_symbol_field_subscription, HANDLE_ERROR_EX, kill_proxy, h1, h2, h2']
    · have hr : create_symbol_field_subscription H T (some symbols) (some fields) (some p)
          = HANDLE_ERROR_EX (.ValueException "invalid FieldType value") p := by
        simp only [create_symbol_field_subscription, h1, h2, hany, if_true, if_false]
      rw [hr]
      refine ⟨⟨_, rfl⟩, rfl, rfl, ?_⟩
      constructor
      · intro _
        exact ⟨by omega, by omega⟩
      · intro _
        rfl
  · intro hok
    obtain ⟨_, _, hv, _, _⟩ := (create_err_none_iff H T symbols fields p).1 hok
    rw [create_ok H T symbols fields p hok]
    refine ⟨_, rfl, ?_⟩
    intro f hf
    exact hv f ((buffers_to_set_mem int_lt_strictTotal fields f).1 hf)

/-- C12: creation is rejected by a count check, with the `ValueException` of that
check, exactly when the number of symbols exceeds `SUBSCRIPTION_MAX_SYMBOLS` or the
number of field codes exceeds `SUBSCRIPTION_MAX_FIELDS`; counts equal to the
maxima are not rejected by the check; on rejection the proxy is killed and owns
no object. -/
theorem count_check (H : Header) (T : SymbolFieldImplTy) (symbols : List String)
    (fields : List Int) (p : StreamingSubscription_C) :
    (((create_symbol_field_subscription H T (some symbols) (some fields) (some p)).err
          = some (.ValueException "nsymbols > SUBSCRIPTION_MAX_SYMBOLS")
        ∨ (create_symbol_field_subscription H T (some symbols) (some fields) (some p)).err
          = some (.ValueException "nfields > SUBSCRIPTION_MAX_FIELDS")) ↔
      (symbols.length > H.SUBSCRIPTION_MAX_SYMBOLS
        ∨ fields.length > H.SUBSCRIPTION_MAX_FIELDS))
      ∧ (symbols.length > H.SUBSCRIPTION_MAX_SYMBOLS
          ∨ fields.length > H.SUBSCRIPTION_MAX_FIELDS →
          (create_symbol_field_subscription H T (some symbols) (some fields) (some p)).psub
              = some (kill_proxy p)
            ∧ (kill_proxy p).obj = none)
      ∧ (symbols.length = H.SUBSCRIPTION_MAX_SYMBOLS →
          fields.length = H.SUBSCRIPTION_MAX_FIELDS →
          (create_symbol_field_subscription H T (some symbols) (some fields) (some p)).err
              ≠ some (.ValueException "nsymbols > SUBSCRIPTION_MAX_SYMBOLS")
            ∧ (create_symbol_field_subscription H T (some symbols) (some fields) (some p)).err
              ≠ some (.ValueException "nfields > SUBSCRIPTION_MAX_FIELDS")) := by
  have key : ((create_symbol_field_subscription H T (some symbols) (some fields) (some p)).err
          = some (.ValueException "nsymbols > SUBSCRIPTION_MAX_SYMBOLS")
        ∨ (create_symbol_field_subscription H T (some symbols) (some fields) (some p)).err
          = some (.ValueException "nfields > SUBSCRIPTION_MAX_FIELDS")) ↔
      (symbols.length > H.SUBSCRIPTION_MAX_SYMBOLS
        ∨ fields.length > H.SUBSCRIPTION_MAX_FIELDS) := by
    by_cases h1 : symbols.length > H.SUBSCRIPTION_MAX_SYMBOLS
    · simp [create_symbol_field_subscription, HANDLE_ERROR_EX, h1]
    by_cases h2 : fields.length > H.SUBSCRIPTION_MAX_FIELDS
    · simp [create_symbol_field_subscription, HANDLE_ERROR_EX, h1, h2]
    by_cases h3 : (fields.any (fun f => !T.is_valid_field H f)) = true
    · have hr : create_symbol_field_subscription H T (some symbols) (some fields) (some p)
          = HANDLE_ERROR_EX (.ValueException "invalid FieldType value") p := by
        simp only [create_symbol_field_subscription, h1, h2, h3, if_true, if_false]
      rw [hr]
      simp [HANDLE_ERROR_EX, h1, h2]
    · have hv : ∀ f ∈ fields, T.is_valid_field H f = true := by
        intro f hf
        by_contra hc
        apply h3
        rw [List.any_eq_true]
        exact ⟨f, hf, by simpa using hc⟩
      rw [create_checked H T symbols fields p (by omega) (by omega) hv]
      by_cases hs : symbols = []
      · subst hs
        have hb : buffers_to_set string_lt ([] : List String) = [] := rfl
        rw [hb, ctor_no_symbols]
        simp [h2]
      by_cases hf : fields = []
      · subst hf
        have hb : buffers_to_set int_lt ([] : List Int) = [] := rfl
        rw [hb, ctor_no_fields T _
          (mt (buffers_to_set_eq_nil string_lt_strictTotal symbols).1 hs)]
        simp [h1]
      · rw [ctor_ok T _ _ (mt (buffers_to_set_eq_nil string_lt_strictTotal symbols).1 hs)
          (mt (buffers_to_set_eq_nil int_lt_strictTotal fields).1 hf)]
        simp [h1, h2]
  refine ⟨key, ?_, ?_⟩
  · intro h
    by_cases h1 : symbols.length > H.SUBSCRIPTION_MAX_SYMBOLS
    · simp [create_symbol_field_subscription, HANDLE_ERROR_EX, kill_proxy, h1]
    · have h2 : fields.length > H.SUBSCRIPTION_MAX_FIELDS := by
        rcases h with h | h
        · exact absurd h h1
        · exact h
      simp [create_symbol_field_subscription, HANDLE_ERROR_EX, kill_proxy, h1, h2]
  · intro e1 e2
    have hn : ¬ (symbols.length > H.SUBSCRIPTION_MAX_SYMBOLS
        ∨ fields.length > H.SUBSCRIPTION_MAX_FIELDS) := by omega
    have hk := mt key.1 hn
    exact ⟨fun h => hk (Or.inl h), fun h => hk (Or.inr h)⟩

/-! ## The actives kinds (C13, C14) -/

theorem map_of_keys_fields (a b : String) :
    map_of [("keys", a), ("fields", b)] = [("fields", b), ("keys", a)] := by
  have h1 : string_lt "fields" "keys" = true := by decide
  simp [map_of, map_insert, h1]

/-- C13: for a valid duration code the three fixed-venue kinds create a request
whose parameter map is {"keys": venue + "-" + to_string(duration), "fields":
"0,1"} with the venue literal "NASDAQ", "NYSE" or "OTCBB"; the option-actives kind,
for a valid venue code as well, creates one with `to_string(venue)` as the venue
string. -/
theorem actives_parameters (H : Header) (T : FixedVenueImplTy) (V D : Int)
    (p : StreamingSubscription_C) (hD : H.DurationType_is_valid D = true) :
    (∃ o,
        create_duration_subscription H T D (some p)
            = { err := none,
                psub := some { obj := some (.actives o),
                               type_id := T.toActives.TYPE_ID_LOW H } }
          ∧ o._parameters
              = [("fields", "0,1"),
                 ("keys", (match T with
                            | .NasdaqActivesSubscriptionImpl => "NASDAQ"
                            | .NYSEActivesSubscriptionImpl => "NYSE"
                            | .OTCBBActivesSubscriptionImpl => "OTCBB")
                          ++ "-" ++ H.DurationType_to_string D)])
      ∧ (H.VenueType_is_valid V = true →
          ∃ o,
            OptionActivesSubscription_Create_ABI H V D (some p)
                = { err := none,
                    psub := some { obj := some (.actives o),
                                   type_id := H.TYPE_ID_SUB_ACTIVES_OPTION } }
              ∧ o._parameters
                  = [("fields", "0,1"),
                     ("keys", H.VenueType_to_string V ++ "-" ++ H.DurationType_to_string D)]) := by
  constructor
  · refine ⟨T.ctor H D, ?_, ?_⟩
    · simp [create_duration_subscription, hD]
    · cases T <;>
        simp [FixedVenueImplTy.ctor, ActivesSubscriptionBaseImpl_ctor, map_of_keys_fields,
          FixedVenueImplTy.venue]
  · intro hV
    refine ⟨OptionActivesSubscriptionImpl_ctor H V D, ?_, ?_⟩
    · simp [OptionActivesSubscription_Create_ABI, hD, hV, ActivesImplTy.TYPE_ID_LOW]
    · simp [OptionActivesSubscriptionImpl_ctor, ActivesSubscriptionBaseImpl_ctor,
        map_of_keys_fields]

/-- Witness for C13: the NASDAQ kind with duration code 0 and the option-actives
kind with venue code 1 on the sample header give the keys "NASDAQ-ALL" and
"CALLS-ALL". -/
theorem actives_parameters_witness :
    (∃ o,
        create_duration_subscription sample_header .NasdaqActivesSubscriptionImpl 0
            (some blank_proxy)
            = { err := none, psub := some { obj := some (.actives o), type_id := 15 } }
          ∧ o._parameters = [("fields", "0,1"), ("keys", "NASDAQ-ALL")])
      ∧ (∃ o,
          OptionActivesSubscription_Create_ABI sample_header 1 0 (some blank_proxy)
              = { err := none, psub := some { obj := some (.actives o), type_id := 18 } }
            ∧ o._parameters = [("fields", "0,1"), ("keys", "CALLS-ALL")]) :=
  ⟨(actives_parameters sample_header .NasdaqActivesSubscriptionImpl 1 0 blank_proxy
      (by decide)).1,
   (actives_parameters sample_header .NasdaqActivesSubscriptionImpl 1 0 blank_proxy
      (by decide)).2 (by decide)⟩

/-- C14: a duration code that fails `is_valid_duration` makes every actives create
fail with a `ValueException` and kill the proxy (no object); the option-actives
create fails in the same way, with the invalid-venue error, when the venue code
fails `is_valid_venue`. A successfully created request holds a duration code, and
for option-actives a venue code, that passed its predicate. -/
theorem actives_validation (H : Header) (T : FixedVenueImplTy) (V D : Int)
    (p : StreamingSubscription_C) :
    (H.DurationType_is_valid D = false →
        create_duration_subscription H T D (some p)
          = { err := some (.ValueException "invalid DurationType value"),
              psub := some (kill_proxy p) })
      ∧ (H.VenueType_is_valid V = false →
          OptionActivesSubscription_Create_ABI H V D (some p)
            = { err := some (.ValueException "invalid VenueType value"),
                psub := some (kill_proxy p) })
      ∧ (H.DurationType_is_valid D = false →
          (∃ msg, (OptionActivesSubscription_Create_ABI H V D (some p)).err
              = some (.ValueException msg))
            ∧ (OptionActivesSubscription_Create_ABI H V D (some p)).psub
              = some (kill_proxy p))
      ∧ (kill_proxy p).obj = none
      ∧ ((create_duration_subscription H T D (some p)).err = none →
          ∃ o, (create_duration_subscription H T D (some p)).psub
                = some { obj := some (.actives o), type_id := T.toActives.TYPE_ID_LOW H }
            ∧ H.DurationType_is_valid o.get_duration = true)
      ∧ ((OptionActivesSubscription_Create_ABI H V D (some p)).err = none →
          ∃ o v, (OptionActivesSubscription_Create_ABI H V D (some p)).psub
                = some { obj := some (.actives o), type_id := H.TYPE_ID_SUB_ACTIVES_OPTION }
            ∧ H.DurationType_is_valid o.get_duration = true
            ∧ o._venue_type = some v ∧ H.VenueType_is_valid v = true) := by
  refine ⟨?_, ?_, ?_, rfl, ?_, ?_⟩
  · intro hD
    simp [create_duration_subscription, hD, HANDLE_ERROR_EX]
  · intro hV
    simp [OptionActivesSubscription_Create_ABI, hV, HANDLE_ERROR_EX]
  · intro hD
    cases hV : H.VenueType_is_valid V <;>
      simp [OptionActivesSubscription_Create_ABI, hV, hD, HANDLE_ERROR_EX]
  · intro hok
    cases hD : H.DurationType_is_valid D
    · simp [create_duration_subscription, hD, HANDLE_ERROR_EX] at hok
    · refine ⟨T.ctor H D, ?_, ?_⟩
      · simp [create_duration_subscription, hD]
      · simpa [FixedVenueImplTy.ctor, ActivesSubscriptionBaseImpl_ctor,
          ActivesSubscriptionImpl.get_duration] using hD
  · intro hok
    cases hV : H.VenueType_is_valid V
    · simp [OptionActivesSubscription_Create_ABI, hV, HANDLE_ERROR_EX] at hok
    · cases hD : H.DurationType_is_valid D
      · simp [OptionActivesSubscription_Create_ABI, hV, hD, HANDLE_ERROR_EX] at hok
      · refine ⟨OptionActivesSubscriptionImpl_ctor H V D, V, ?_, ?_, rfl, hV⟩
        · simp [OptionActivesSubscription_Create_ABI, hV, hD, ActivesImplTy.TYPE_ID_LOW]
        · simpa [OptionActivesSubscriptionImpl_ctor, ActivesSubscriptionBaseImpl_ctor,
            ActivesSubscriptionImpl.get_duration] using hD

/-! ## Lemmas on the handle check, the accessors and destroy -/

/-- An accessor whose handle check fails returns the error of the check and
leaves its output locations as they were. -/
theorem accessor_call_not_callable (H : Header) (a : Accessor) (alloc_ok : Bool)
    (psub : Option StreamingSubscription_C) (out : a.Out) (e : Exc)
    (h : proxy_is_callable H a.cls psub = some e) :
    a.call H alloc_ok psub out = .returned (some e) out := by
  cases a <;>
    simp only [Accessor.cls] at h <;>
    simp [Accessor.call, StreamingSubscription_GetService_ABI,
      StreamingSubscription_GetCommand_ABI, SubscriptionBySymbolBase_GetSymbols_ABI,
      get_fields, ActivesSubscriptionBase_GetDuration_ABI,
      OptionActivesSubscription_GetVenue_ABI, h]

theorem proxy_is_callable_out_of_range (H : Header) (C : ImplClass) (obj : Option Impl)
    (tag : Int) (h : tag < C.TYPE_ID_LOW H ∨ C.TYPE_ID_HIGH H < tag) :
    proxy_is_callable H C (some { obj := obj, type_id := tag })
      = some (.TypeException "proxy type_id out of range") := by
  simp [proxy_is_callable, h]

theorem proxy_is_callable_no_obj (H : Header) (C : ImplClass) (q : StreamingSubscription_C)
    (h : q.obj = none) : ∃ e, proxy_is_callable H C (some q) = some e := by
  unfold proxy_is_callable
  by_cases hr : q.type_id < C.TYPE_ID_LOW H ∨ C.TYPE_ID_HIGH H < q.type_id
  · exact ⟨.TypeException "proxy type_id out of range", by simp [hr]⟩
  · exact ⟨null_pointer_error "proxy->obj", by simp [hr, h]⟩

/-- A handle that owns no object is inert. -/
theorem inert_of_no_obj (H : Header) (q : StreamingSubscription_C) (h : q.obj = none) :
    Inert H q := by
  refine ⟨?_, ?_, ?_⟩
  · intro a alloc_ok out
    obtain ⟨e, he⟩ := proxy_is_callable_no_obj H a.cls q h
    exact ⟨e, accessor_call_not_callable H a alloc_ok (some q) out e he⟩
  · obtain ⟨e, he⟩ := proxy_is_callable_no_obj H .StreamingSubscriptionImpl q h
    exact ⟨e, by simp [StreamingSubscription_Destroy_ABI, he]⟩
  · intro K
    obtain ⟨e, he⟩ := proxy_is_callable_no_obj H (.concrete K) q h
    exact ⟨e, by simp [destroy_proxy, he]⟩

/-- The generic destroy of a callable handle kills the proxy, whether or not the
downcast recognizes its tag. -/
theorem destroy_callable (H : Header) (p : StreamingSubscription_C)
    (h : proxy_is_callable H .StreamingSubscriptionImpl (some p) = none) :
    (StreamingSubscription_Destroy_ABI H (some p)).psub = some (kill_proxy p) := by
  unfold StreamingSubscription_Destroy_ABI
  rw [h]
  cases C_sub_ptr_to_impl_ptr H (some p) <;> rfl

/-- A create function pays no attention to what the proxy holds. -/
theorem create_symbol_field_any_proxy (H : Header) (T : SymbolFieldImplTy)
    (symbols : Option (List String)) (fields : Option (List Int))
    (p q : StreamingSubscription_C) :
    create_symbol_field_subscription H T symbols fields (some q)
      = create_symbol_field_subscription H T symbols fields (some p) := by
  unfold create_symbol_field_subscription
  simp only [HANDLE_ERROR_EX, kill_proxy]

theorem create_duration_any_proxy (H : Header) (T : FixedVenueImplTy) (D : Int)
    (p q : StreamingSubscription_C) :
    create_duration_subscription H T D (some q) = create_duration_subscription H T D (some p) := by
  unfold create_duration_subscription
  simp only [HANDLE_ERROR_EX, kill_proxy]

theorem create_option_actives_any_proxy (H : Header) (V D : Int)
    (p q : StreamingSubscription_C) :
    OptionActivesSubscription_Create_ABI H V D (some q)
      = OptionActivesSubscription_Create_ABI H V D (some p) := by
  unfold OptionActivesSubscription_Create_ABI
  simp only [HANDLE_ERROR_EX, kill_proxy]

/-- A failed symbol+field create on a non-null proxy leaves the killed proxy. -/
theorem create_symbol_field_failed (H : Header) (T : SymbolFieldImplTy)
    (symbols : Option (List String)) (fields : Option (List Int))
    (p : StreamingSubscription_C)
    (h : (create_symbol_field_subscription H T symbols fields (some p)).err ≠ none) :
    (create_symbol_field_subscription H T symbols fields (some p)).psub
      = some (kill_proxy p) := by
  unfold create_symbol_field_subscription at h ⊢
  cases symbols with
  | none => rfl
  | some ss =>
    cases fields with
    | none => rfl
    | some fs =>
      simp only at h ⊢
      split_ifs at h ⊢ with h1 h2 h3
      · rfl
      · rfl
      · rfl
      · cases hc : T.ctor (buffers_to_set string_lt ss) (buffers_to_set int_lt fs) with
        | error e => rfl
        | ok obj =>
          rw [hc] at h
          exact absurd rfl h

theorem create_duration_failed (H : Header) (T : FixedVenueImplTy) (D : Int)
    (p : StreamingSubscription_C)
    (h : (create_duration_subscription H T D (some p)).err ≠ none) :
    (create_duration_subscription H T D (some p)).psub = some (kill_proxy p) := by
  unfold create_duration_subscription at h ⊢
  simp only at h ⊢
  split_ifs at h ⊢
  · rfl
  · exact absurd rfl h

theorem create_option_actives_failed (H : Header) (V D : Int)
    (p : StreamingSubscription_C)
    (h : (OptionActivesSubscription_Create_ABI H V D (some p)).err ≠ none) :
    (OptionActivesSubscription_Create_ABI H V D (some p)).psub = some (kill_proxy p) := by
  unfold OptionActivesSubscription_Create_ABI at h ⊢
  simp only at h ⊢
  split_ifs at h ⊢
  · rfl
  · rfl
  · exact absurd rfl h

theorem destroy_psub_some (H : Header) (q : StreamingSubscription_C) :
    ∃ q', (StreamingSubscription_Destroy_ABI H (some q)).psub = some q' := by
  unfold StreamingSubscription_Destroy_ABI
  cases proxy_is_callable H .StreamingSubscriptionImpl (some q) with
  | some e => exact ⟨q, rfl⟩
  | none =>
    cases C_sub_ptr_to_impl_ptr H (some q) <;> exact ⟨kill_proxy q, rfl⟩

theorem switch_cases_complete (K : ConcreteImplTy) : K ∈ switch_cases := by
  cases K with
  | symbol_field T => cases T <;> simp [switch_cases]
  | actives T => cases T <;> simp [switch_cases]

/-- The downcast on a callable proxy: the first case label equal to the tag
decides. -/
theorem C_sub_ptr_to_impl_ptr_callable (H : Header) (p : StreamingSubscription_C)
    (h : p.obj ≠ none) :
    C_sub_ptr_to_impl_ptr H (some p) =
      match switch_cases.find? (fun K => K.TYPE_ID H == p.type_id) with
      | some K => .ok (K, p.obj)
      | none => .error (.TypeException "invalid C subscription type_id") := by
  have hb : base_proxy_is_callable (some p) = none := by
    cases ho : p.obj with
    | none => exact absurd ho h
    | some o => simp [base_proxy_is_callable, ho]
  simp only [C_sub_ptr_to_impl_ptr, hb]

theorem outcome_returned_inj {α : Type} {e e' : Option Exc} {x x' : α}
    (h : Outcome.returned e x = Outcome.returned e' x') : e = e' ∧ x = x' := by
  injection h with h1 h2
  exact ⟨h1, h2⟩

/-- An accessor other than `get_fields` that returns an error leaves its output
locations as they were. -/
theorem accessor_error_keeps_outputs (H : Header) (a : Accessor) (alloc_ok : Bool)
    (psub : Option StreamingSubscription_C) (out out' : a.Out) (e : Exc)
    (hna : ∀ T, a ≠ .GetFields T)
    (h : a.call H alloc_ok psub out = .returned (some e) out') : out' = out := by
  cases a with
  | GetFields T => exact absurd rfl (hna T)
  | GetService =>
    simp only [Accessor.call, StreamingSubscription_GetService_ABI] at h
    repeat' split at h
    all_goals first
      | exact (outcome_returned_inj h).2.symm
      | exact absurd (outcome_returned_inj h).1 (by simp)
      | cases h
  | GetDuration =>
    simp only [Accessor.call, ActivesSubscriptionBase_GetDuration_ABI] at h
    repeat' split at h
    all_goals first
      | exact (outcome_returned_inj h).2.symm
      | exact absurd (outcome_returned_inj h).1 (by simp)
      | cases h
  | GetVenue =>
    simp only [Accessor.call, OptionActivesSubscription_GetVenue_ABI] at h
    repeat' split at h
    all_goals first
      | exact (outcome_returned_inj h).2.symm
      | exact absurd (outcome_returned_inj h).1 (by simp)
      | cases h
  | GetCommand =>
    obtain ⟨buf, n⟩ := out
    simp only [Accessor.call, StreamingSubscription_GetCommand_ABI, to_new_char_buffer] at h
    repeat' split at h
    all_goals first
      | exact (outcome_returned_inj h).2.symm
      | exact absurd (outcome_returned_inj h).1 (by simp)
      | cases h
  | GetSymbols =>
    obtain ⟨buf, n⟩ := out
    simp only [Accessor.call, SubscriptionBySymbolBase_GetSymbols_ABI, to_new_char_buffers] at h
    repeat' split at h
    all_goals first
      | exact (outcome_returned_inj h).2.symm
      | exact absurd (outcome_returned_inj h).1 (by simp)
      | cases h

/-! ## The handle check in the accessors (C15) -/

/-- C15: an accessor called on a handle whose tag lies outside the closed range
`[TYPE_ID_LOW, TYPE_ID_HIGH]` of the accessor's class returns a `TypeException`
and leaves its output locations as they were, whatever object the handle owns
(the object is not read). -/
theorem accessor_type_mismatch (H : Header) (a : Accessor) (tag : Int)
    (h : tag < a.cls.TYPE_ID_LOW H ∨ a.cls.TYPE_ID_HIGH H < tag) :
    ∃ msg, ∀ (obj : Option Impl) (alloc_ok : Bool) (out : a.Out),
      a.call H alloc_ok (some { obj := obj, type_id := tag }) out
        = .returned (some (.TypeException msg)) out :=
  ⟨"proxy type_id out of range", fun obj alloc_ok out =>
    accessor_call_not_callable H a alloc_ok _ out _
      (proxy_is_callable_out_of_range H a.cls obj tag h)⟩

/-- Witness for C15: the quotes get-fields accessor on a handle tagged with the
options identifier of the sample header. -/
theorem accessor_type_mismatch_witness :
    ∃ msg, ∀ (obj : Option Impl) (alloc_ok : Bool)
        (out : Option (Option (List Int)) × Option Nat),
      get_fields sample_header .QuotesSubscriptionImpl alloc_ok
          (some { obj := obj, type_id := 2 }) out.1 out.2
        = .returned (some (.TypeException msg)) out :=
  accessor_type_mismatch sample_header (.GetFields .QuotesSubscriptionImpl) 2 (by decide)

/-! ## Destroy, failed creates and the handle states (C16 - C18) -/

/-- C16: a destroy of a live handle (generic, or of the handle's own class) leaves
the killed proxy: no owned object and the tag -1. On it every accessor returns an
error and writes no output, and every further destroy returns an error, deletes
nothing and leaves the proxy as it is. -/
theorem destroy_makes_inert (H : Header) (p : StreamingSubscription_C)
    (hlive : proxy_is_callable H .StreamingSubscriptionImpl (some p) = none) :
    (StreamingSubscription_Destroy_ABI H (some p)).psub = some (kill_proxy p)
      ∧ (∀ K : ConcreteImplTy, proxy_is_callable H (.concrete K) (some p) = none →
          destroy_proxy H K (some p)
            = { err := none, psub := some (kill_proxy p), deleted := p.obj })
      ∧ (kill_proxy p).obj = none ∧ (kill_proxy p).type_id = -1
      ∧ Inert H (kill_proxy p) := by
  refine ⟨destroy_callable H p hlive, ?_, rfl, rfl, inert_of_no_obj H _ rfl⟩
  intro K hK
  simp [destroy_proxy, hK]

/-- Witness for C16: the live quotes handle of the sample header. -/
theorem destroy_makes_inert_witness :
    (StreamingSubscription_Destroy_ABI sample_header
        (some (sample_quotes_proxy sample_header))).psub
        = some (kill_proxy (sample_quotes_proxy sample_header))
      ∧ (∀ K : ConcreteImplTy,
          proxy_is_callable sample_header (.concrete K)
              (some (sample_quotes_proxy sample_header)) = none →
          destroy_proxy sample_header K (some (sample_quotes_proxy sample_header))
            = { err := none, psub := some (kill_proxy (sample_quotes_proxy sample_header)),
                deleted := (sample_quotes_proxy sample_header).obj })
      ∧ (kill_proxy (sample_quotes_proxy sample_header)).obj = none
      ∧ (kill_proxy (sample_quotes_proxy sample_header)).type_id = -1
      ∧ Inert sample_header (kill_proxy (sample_quotes_proxy sample_header)) :=
  destroy_makes_inert sample_header (sample_quotes_proxy sample_header) (by decide)

/-- C17: when a create function called with a non-null proxy returns an error,
the proxy is killed on return: it owns no object and has the tag -1, and every
accessor and every destroy called on it fails. -/
theorem failed_create_kills_proxy (H : Header) (p : StreamingSubscription_C) :
    (∀ (T : SymbolFieldImplTy) (symbols : Option (List String)) (fields : Option (List Int)),
        (create_symbol_field_subscription H T symbols fields (some p)).err ≠ none →
        (create_symbol_field_subscription H T symbols fields (some p)).psub
          = some (kill_proxy p))
      ∧ (∀ (T : FixedVenueImplTy) (D : Int),
          (create_duration_subscription H T D (some p)).err ≠ none →
          (create_duration_subscription H T D (some p)).psub = some (kill_proxy p))
      ∧ (∀ V D : Int,
          (OptionActivesSubscription_Create_ABI H V D (some p)).err ≠ none →
          (OptionActivesSubscription_Create_ABI H V D (some p)).psub = some (kill_proxy p))
      ∧ (kill_proxy p).obj = none ∧ (kill_proxy p).type_id = -1
      ∧ Inert H (kill_proxy p) :=
  ⟨fun T symbols fields h => create_symbol_field_failed H T symbols fields p h,
   fun T D h => create_duration_failed H T D p h,
   fun V D h => create_option_actives_failed H V D p h,
   rfl, rfl, inert_of_no_obj H _ rfl⟩

/-- C18 as stated fails: on the sample header a NASDAQ actives handle is created,
destroyed (the proxy is then killed), and the same create call on the destroyed
proxy succeeds and leaves the same live handle as the first one. For every header
a create that succeeds on a fresh proxy succeeds in the same way on the proxy the
destroy left. -/
theorem destroyed_handle_created_again :
    (create_duration_subscription sample_header .NasdaqActivesSubscriptionImpl 0
        (some blank_proxy)).err = none
      ∧ StreamingSubscription_Destroy_ABI sample_header
          (create_duration_subscription sample_header .NasdaqActivesSubscriptionImpl 0
            (some blank_proxy)).psub
        = { err := none, psub := some { obj := none, type_id := -1 },
            deleted := some (.actives
              (FixedVenueImplTy.ctor sample_header .NasdaqActivesSubscriptionImpl 0)) }
      ∧ create_duration_subscription sample_header .NasdaqActivesSubscriptionImpl 0
          (some { obj := none, type_id := -1 })
        = { err := none,
            psub := some
              { obj := some (.actives
                  (FixedVenueImplTy.ctor sample_header .NasdaqActivesSubscriptionImpl 0)),
                type_id := 15 } }
      ∧ ¬ ∃ (H : Header) (T : FixedVenueImplTy) (D : Int) (p : StreamingSubscription_C),
          (create_duration_subscription H T D (some p)).err = none
            ∧ create_duration_subscription H T D
                (StreamingSubscription_Destroy_ABI H
                  (create_duration_subscription H T D (some p)).psub).psub
              ≠ create_duration_subscription H T D (some p) := by
  refine ⟨by decide, by decide, by decide, ?_⟩
  rintro ⟨H, T, D, p, hok, hne⟩
  apply hne
  have hp : ∃ q, (create_duration_subscription H T D (some p)).psub = some q := by
    unfold create_duration_subscription
    simp only [HANDLE_ERROR_EX]
    split_ifs <;> exact ⟨_, rfl⟩
  obtain ⟨q, hq⟩ := hp
  obtain ⟨q', hq'⟩ := destroy_psub_some H q
  rw [hq, hq']
  exact create_duration_any_proxy H T D p q'

/-- C18, amended: a create call on a destroyed handle behaves exactly as on any
other proxy, so it makes the handle live again when its inputs are valid; every
other operation (accessor or destroy) on a handle that owns no object, destroyed
or never created, fails, writes no output, deletes nothing and leaves the handle
as it is. -/
theorem handle_states (H : Header) (p q : StreamingSubscription_C) :
    (∀ (T : SymbolFieldImplTy) (symbols : Option (List String)) (fields : Option (List Int)),
        create_symbol_field_subscription H T symbols fields (some (kill_proxy p))
          = create_symbol_field_subscription H T symbols fields (some q))
      ∧ (∀ (T : FixedVenueImplTy) (D : Int),
          create_duration_subscription H T D (some (kill_proxy p))
            = create_duration_subscription H T D (some q))
      ∧ (∀ V D : Int,
          OptionActivesSubscription_Create_ABI H V D (some (kill_proxy p))
            = OptionActivesSubscription_Create_ABI H V D (some q))
      ∧ (q.obj = none → Inert H q) :=
  ⟨fun T symbols fields => create_symbol_field_any_proxy H T symbols fields q _,
   fun T D => create_duration_any_proxy H T D q _,
   fun V D => create_option_actives_any_proxy H V D q _,
   inert_of_no_obj H q⟩

/-! ## The downcast (C19) -/

/-- C19: on a callable proxy the downcast matches the tag against its sixteen case
labels, one for each concrete class. When a label equals the tag it returns the
owned object cast to a class whose identifier is the tag (to the class of that
label itself when the identifiers are pairwise distinct); when no label equals the
tag it throws the `TypeException`, in particular for the chart-forex and
timesale-forex identifiers when they differ from the sixteen labels. It never
returns anything else. -/
theorem downcast_dispatch (H : Header) (p : StreamingSubscription_C) (hobj : p.obj ≠ none) :
    (∀ K : ConcreteImplTy, K ∈ switch_cases)
      ∧ (∀ K : ConcreteImplTy, K.TYPE_ID H = p.type_id →
          ∃ K', C_sub_ptr_to_impl_ptr H (some p) = .ok (K', p.obj)
            ∧ K'.TYPE_ID H = p.type_id)
      ∧ ((switch_cases.map (fun K => K.TYPE_ID H)).Nodup →
          ∀ K : ConcreteImplTy, K.TYPE_ID H = p.type_id →
            C_sub_ptr_to_impl_ptr H (some p) = .ok (K, p.obj))
      ∧ ((∀ K : ConcreteImplTy, K.TYPE_ID H ≠ p.type_id) →
          C_sub_ptr_to_impl_ptr H (some p)
            = .error (.TypeException "invalid C subscription type_id"))
      ∧ ((∀ K : ConcreteImplTy, K.TYPE_ID H ≠ H.TYPE_ID_SUB_CHART_FOREX) →
          C_sub_ptr_to_impl_ptr H (some { obj := p.obj, type_id := H.TYPE_ID_SUB_CHART_FOREX })
            = .error (.TypeException "invalid C subscription type_id"))
      ∧ ((∀ K : ConcreteImplTy, K.TYPE_ID H ≠ H.TYPE_ID_SUB_TIMESALE_FOREX) →
          C_sub_ptr_to_impl_ptr H
              (some { obj := p.obj, type_id := H.TYPE_ID_SUB_TIMESALE_FOREX })
            = .error (.TypeException "invalid C subscription type_id"))
      ∧ (∀ K' o, C_sub_ptr_to_impl_ptr H (some p) = .ok (K', o) →
          K'.TYPE_ID H = p.type_id ∧ o = p.obj) := by
  have hrec : ∀ K : ConcreteImplTy, K.TYPE_ID H = p.type_id →
      ∃ K', C_sub_ptr_to_impl_ptr H (some p) = .ok (K', p.obj)
        ∧ K'.TYPE_ID H = p.type_id := by
    intro K hK
    rw [C_sub_ptr_to_impl_ptr_callable H p hobj]
    cases hf : switch_cases.find? (fun K => K.TYPE_ID H == p.type_id) with
    | none =>
      rw [List.find?_eq_none] at hf
      have := hf K (switch_cases_complete K)
      simp [hK] at this
    | some K' =>
      have := List.find?_some hf
      exact ⟨K', rfl, by simpa using this⟩
  have hnone : ∀ q : StreamingSubscription_C, q.obj ≠ none →
      (∀ K : ConcreteImplTy, K.TYPE_ID H ≠ q.type_id) →
      C_sub_ptr_to_impl_ptr H (some q)
        = .error (.TypeException "invalid C subscription type_id") := by
    intro q hq hK
    rw [C_sub_ptr_to_impl_ptr_callable H q hq]
    have hf : switch_cases.find? (fun K => K.TYPE_ID H == q.type_id) = none := by
      rw [List.find?_eq_none]
      intro K _
      simpa using hK K
    rw [hf]
  refine ⟨switch_cases_complete, hrec, ?_, hnone p hobj, ?_, ?_, ?_⟩
  · intro hnd K hK
    obtain ⟨K', hr, hK'⟩ := hrec K hK
    have e : K' = K :=
      List.inj_on_of_nodup_map hnd (switch_cases_complete K') (switch_cases_complete K)
        (hK'.trans hK.symm)
    rw [hr, e]
  · exact hnone { obj := p.obj, type_id := H.TYPE_ID_SUB_CHART_FOREX } hobj
  · exact hnone { obj := p.obj, type_id := H.TYPE_ID_SUB_TIMESALE_FOREX } hobj
  · intro K' o hr
    rw [C_sub_ptr_to_impl_ptr_callable H p hobj] at hr
    cases hf : switch_cases.find? (fun K => K.TYPE_ID H == p.type_id) with
    | none =>
      rw [hf] at hr
      cases hr
    | some K'' =>
      rw [hf] at hr
      have hpred := List.find?_some hf
      injection hr with hr
      injection hr with h1 h2
      subst h1
      exact ⟨by simpa using hpred, h2.symm⟩

/-- Witness for C19: on the sample header the live quotes proxy is cast to the
quotes class, and the same object under the chart-forex identifier 8 is
rejected. -/
theorem downcast_dispatch_witness :
    C_sub_ptr_to_impl_ptr sample_header (some (sample_quotes_proxy sample_header))
        = .ok (.symbol_field .QuotesSubscriptionImpl, (sample_quotes_proxy sample_header).obj)
      ∧ C_sub_ptr_to_impl_ptr sample_header
          (some { obj := (sample_quotes_proxy sample_header).obj, type_id := 8 })
        = .error (.TypeException "invalid C subscription type_id") :=
  ⟨(downcast_dispatch sample_header (sample_quotes_proxy sample_header) (by decide)).2.2.1
      (by decide) (.symbol_field .QuotesSubscriptionImpl) rfl,
   (downcast_dispatch sample_header (sample_quotes_proxy sample_header) (by decide)).2.2.2.2.1
      (by intro K; cases K with
        | symbol_field T => cases T <;> decide
        | actives T => cases T <;> decide)⟩

/-! ## Outputs of a failed accessor (C20) -/

/-- C20 as stated fails for every header: `get_fields` on the live quotes handle
(one field code) with the count location holding 7 writes the count 1 before it
allocates, so when the allocation fails it returns the error with the count
location changed. -/
theorem get_fields_count_overwritten :
    (¬ ∃ H : Header,
        get_fields H .QuotesSubscriptionImpl false (some (sample_quotes_proxy H))
            (some none) (some 7)
          ≠ .returned (some .AllocationError) (some none, some 1))
      ∧ ¬ ∃ H : Header, ∀ (a : Accessor) (alloc_ok : Bool) (p : StreamingSubscription_C)
          (out out' : a.Out) (e : Exc),
          a.call H alloc_ok (some p) out = .returned (some e) out' → out' = out := by
  have hcall : ∀ H : Header,
      get_fields H .QuotesSubscriptionImpl false (some (sample_quotes_proxy H))
          (some none) (some 7)
        = .returned (some .AllocationError) (some none, some 1) := by
    intro H
    simp [get_fields, proxy_is_callable, sample_quotes_proxy, FieldsImplTy.cls,
      ImplClass.TYPE_ID_LOW, ImplClass.TYPE_ID_HIGH, ConcreteImplTy.TYPE_ID,
      SymbolFieldImplTy.TYPE_ID_LOW, read_as, ImplClass.has_instance, Impl.dyn,
      sample_quotes_object, Impl.fields, SymbolFieldSubscriptionImpl.get_fields,
      alloc_to_buffer]
  constructor
  · rintro ⟨H, h⟩
    exact h (hcall H)
  · rintro ⟨H, h⟩
    have := h (.GetFields .QuotesSubscriptionImpl) false (sample_quotes_proxy H)
      (some none, some 7) (some none, some 1) .AllocationError (hcall H)
    have h2 : some (1 : Nat) = some 7 :=
      congrArg (fun x : Option (Option (List Int)) × Option Nat => x.2) this
    exact absurd h2 (by decide)

/-- C20, amended: an accessor other than `get_fields` that returns an error leaves
every output location as it was; every accessor, `get_fields` included, does so
when the error comes from its handle check; and `get_fields` leaves the field
buffer pointer as it was on every error. -/
theorem accessor_error_outputs (H : Header) :
    (∀ (a : Accessor) (alloc_ok : Bool) (psub : Option StreamingSubscription_C)
        (out out' : a.Out) (e : Exc),
        a.call H alloc_ok psub out = .returned (some e) out' →
        (∀ T, a ≠ .GetFields T) → out' = out)
      ∧ (∀ (a : Accessor) (alloc_ok : Bool) (psub : Option StreamingSubscription_C)
          (out out' : a.Out) (e : Exc),
          a.call H alloc_ok psub out = .returned (some e) out' →
          proxy_is_callable H a.cls psub ≠ none → out' = out)
      ∧ (∀ (T : FieldsImplTy) (alloc_ok : Bool) (psub : Option StreamingSubscription_C)
          (fields : Option (Option (List Int))) (n : Option Nat) (e : Exc)
          (out' : Option (Option (List Int)) × Option Nat),
          get_fields H T alloc_ok psub fields n = .returned (some e) out' →
          out'.1 = fields) := by
  refine ⟨?_, ?_, ?_⟩
  · intro a alloc_ok psub out out' e h hna
    exact accessor_error_keeps_outputs H a alloc_ok psub out out' e hna h
  · intro a alloc_ok psub out out' e h hc
    cases hp : proxy_is_callable H a.cls psub with
    | none => exact absurd hp hc
    | some e0 =>
      rw [accessor_call_not_callable H a alloc_ok psub out e0 hp] at h
      exact (outcome_returned_inj h).2.symm
  · intro T alloc_ok psub fields n e out' h
    simp only [get_fields] at h
    repeat' split at h
    all_goals first
      | exact congrArg Prod.fst (outcome_returned_inj h).2.symm
      | exact absurd (outcome_returned_inj h).1 (by simp)
      | cases h

/-! ## Lemmas for the last claims -/

theorem list_snoc2 {α : Type} (l : List α) (h : 2 ≤ l.length) :
    ∃ pre c2 c1, l = pre ++ [c2, c1] := by
  rcases List.eq_nil_or_concat l with e | ⟨l', c1, e⟩
  · subst e
    simp at h
  · subst e
    rcases List.eq_nil_or_concat l' with e | ⟨pre, c2, e⟩
    · subst e
      simp at h
    · subst e
      exact ⟨pre, c2, c1, by simp⟩

/-- The checked encoder on a string given as its characters before the last two,
its second-to-last and its last character: no access fails. -/
theorem encode_symbol_checked_snoc2 (pre : List Char) (c2 c1 : Char) :
    encode_symbol_checked (String.mk (pre ++ [c2, c1]))
      = some (encode_symbol (String.mk (pre ++ [c2, c1]))) := by
  have hlen : ¬ (pre ++ [c2, c1]).length < 2 := by simp
  have hlen' : ¬ (List.map toupper pre).length + 2 < 2 := by omega
  have g2 : (List.map toupper (pre ++ [c2, c1]))[(pre ++ [c2, c1]).length - 2]?
      = some (toupper c2) := by
    have e : (pre ++ [c2, c1]).length - 2 = (List.map toupper pre).length := by simp
    rw [e, List.map_append, List.getElem?_append_right (le_refl _)]
    simp
  have g1 : (List.map toupper (pre ++ [c2, c1]))[(pre ++ [c2, c1]).length - 1]?
      = some (toupper c1) := by
    have e : (pre ++ [c2, c1]).length - 1 = (List.map toupper pre).length + 1 := by simp
    rw [e, List.map_append, List.getElem?_append_right (Nat.le_succ _)]
    simp
  have t2 : List.take ((pre ++ [c2, c1]).length - 2) (List.map toupper (pre ++ [c2, c1]))
      = pre.map toupper := by
    simp
  have d1 : (List.map toupper (pre ++ [c2, c1])).dropLast = pre.map toupper ++ [toupper c2] := by
    simp [List.dropLast_append_cons]
  rw [encode_symbol_snoc2]
  unfold encode_symbol_checked string_toupper
  simp only [hlen, if_false, g2, g1, t2, d1, R_toupper, toupper_eq_plus]
  cases hR : R c2 with
  | some r => simp
  | none =>
    by_cases hc : c1 = '+'
    · simp [hc]
    · simp [hc]

theorem map_toupper_idem (l : List Char) :
    (l.map toupper).map toupper = l.map toupper := by
  induction l with
  | nil => rfl
  | cons a t ih => simp [toupper_idem]

theorem enc_dot (pre : List Char) (c1 : Char) :
    encode_symbol (String.mk (pre ++ ['.', c1]))
      = String.mk (pre.map toupper ++ ['/', toupper c1]) := by
  rw [encode_symbol_snoc2]
  apply String.ext
  simp [R, String.singleton]

theorem enc_hyphen (pre : List Char) (c1 : Char) :
    encode_symbol (String.mk (pre ++ ['-', c1]))
      = String.mk (pre.map toupper ++ ['p', toupper c1]) := by
  rw [encode_symbol_snoc2]
  apply String.ext
  simp [R, String.singleton]

theorem enc_plus (pre : List Char) (c1 : Char) :
    encode_symbol (String.mk (pre ++ ['+', c1]))
      = String.mk ((pre.map toupper ++ ['/', 'W', 'S']) ++ ['/', toupper c1]) := by
  rw [encode_symbol_snoc2]
  apply String.ext
  simp [R, String.singleton]

theorem enc_trail (pre : List Char) (c2 : Char)
    (h : c2 ≠ '.' ∧ c2 ≠ '-' ∧ c2 ≠ '+') :
    encode_symbol (String.mk (pre ++ [c2, '+']))
      = String.mk ((pre.map toupper ++ [toupper c2, '/']) ++ ['W', 'S']) := by
  rw [encode_symbol_snoc2, R_none c2 h.1 h.2.1 h.2.2]
  apply String.ext
  simp

theorem enc_plain (pre : List Char) (c2 c1 : Char)
    (h : c2 ≠ '.' ∧ c2 ≠ '-' ∧ c2 ≠ '+') (h1 : c1 ≠ '+') :
    encode_symbol (String.mk (pre ++ [c2, c1]))
      = String.mk (pre.map toupper ++ [toupper c2, toupper c1]) := by
  rw [encode_symbol_snoc2, R_none c2 h.1 h.2.1 h.2.2]
  simp [h1]

/-! ## The encoder applied twice and its totality (C25, C30) -/

theorem mk_append_ne (p a b : List Char) (h : a ≠ b) :
    String.mk (p ++ a) ≠ String.mk (p ++ b) := by
  intro e
  exact h (List.append_cancel_left (congrArg String.data e))

/-- C25 as stated fails on "brk-b": the first application gives "BRKpB", with the
lowercase 'p' of the hyphen rule; the second uppercases it to "BRKPB". -/
theorem encode_symbol_not_idempotent :
    encode_symbol "brk-b" = "BRKpB" ∧ encode_symbol (encode_symbol "brk-b") = "BRKPB"
      ∧ encode_symbol (encode_symbol "brk-b") ≠ encode_symbol "brk-b" := by
  decide

/-- C25, amended: a second application of `encode_symbol` leaves the result of the
first unchanged for every string shorter than two characters, and for a string of
at least two characters exactly when its second-to-last character is not '-' and
it is not the case that the second-to-last character is '.' or '+' while the last
one is '+'. -/
theorem encode_symbol_twice (s : String) :
    (s.data.length < 2 → encode_symbol (encode_symbol s) = encode_symbol s)
      ∧ ∀ pre c2 c1, s.data = pre ++ [c2, c1] →
          (encode_symbol (encode_symbol s) = encode_symbol s ↔
            c2 ≠ '-' ∧ ¬ ((c2 = '.' ∨ c2 = '+') ∧ c1 = '+')) := by
  constructor
  · intro h
    rw [encode_symbol_short s h, encode_symbol_short s h]
  · intro pre c2 c1 hs
    have hs' : s = String.mk (pre ++ [c2, c1]) := String.ext hs
    rw [hs']
    have up : toupper '+' = '+' := by decide
    have us : toupper '/' = '/' := by decide
    have uW : toupper 'W' = 'W' := by decide
    have uS : toupper 'S' = 'S' := by decide
    have uP : toupper 'p' = 'P' := by decide
    have uc : toupper ∘ toupper = toupper := funext toupper_idem
    by_cases hd : c2 = '.'
    · subst hd
      rw [enc_dot]
      by_cases h1 : c1 = '+'
      · subst h1
        rw [up, enc_trail (pre.map toupper) '/' (by decide)]
        simp [uc, map_toupper_idem, us]
        exact mk_append_ne _ _ _ (by decide)
      · have h1' : toupper c1 ≠ '+' := fun h => h1 ((toupper_eq_plus c1).1 h)
        rw [enc_plain (pre.map toupper) '/' (toupper c1) (by decide) h1']
        simp [uc, map_toupper_idem, us, toupper_idem, h1]
    by_cases hh : c2 = '-'
    · subst hh
      rw [enc_hyphen]
      by_cases h1 : c1 = '+'
      · subst h1
        rw [up, enc_trail (pre.map toupper) 'p' (by decide)]
        simp [uc, map_toupper_idem, uP]
        exact mk_append_ne _ _ _ (by decide)
      · have h1' : toupper c1 ≠ '+' := fun h => h1 ((toupper_eq_plus c1).1 h)
        rw [enc_plain (pre.map toupper) 'p' (toupper c1) (by decide) h1']
        simp [uc, map_toupper_idem, uP, toupper_idem]
        exact mk_append_ne _ _ _ (by simp)
    by_cases hp : c2 = '+'
    · subst hp
      rw [enc_plus]
      by_cases h1 : c1 = '+'
      · subst h1
        rw [up, enc_trail (pre.map toupper ++ ['/', 'W', 'S']) '/' (by decide)]
        simp [uc, map_toupper_idem, us, uW, uS]
        exact mk_append_ne _ _ _ (by decide)
      · have h1' : toupper c1 ≠ '+' := fun h => h1 ((toupper_eq_plus c1).1 h)
        rw [enc_plain (pre.map toupper ++ ['/', 'W', 'S']) '/' (toupper c1) (by decide) h1']
        simp [uc, map_toupper_idem, us, uW, uS, toupper_idem, h1]
    · have hc2 : c2 ≠ '.' ∧ c2 ≠ '-' ∧ c2 ≠ '+' := ⟨hd, hh, hp⟩
      have hR : R (toupper c2) = none := by rw [R_toupper]; exact R_none c2 hd hh hp
      have hc2' : toupper c2 ≠ '.' ∧ toupper c2 ≠ '-' ∧ toupper c2 ≠ '+' := by
        refine ⟨?_, ?_, ?_⟩ <;> intro h <;> rw [h] at hR <;> exact absurd hR (by decide)
      by_cases h1 : c1 = '+'
      · subst h1
        rw [enc_trail pre c2 hc2,
          enc_plain (pre.map toupper ++ [toupper c2, '/']) 'W' 'S' (by decide) (by decide)]
        simp [uc, map_toupper_idem, us, uW, uS, toupper_idem, hd, hh, hp]
      · have h1' : toupper c1 ≠ '+' := fun h => h1 ((toupper_eq_plus c1).1 h)
        rw [enc_plain pre c2 c1 hc2 h1,
          enc_plain (pre.map toupper) (toupper c2) (toupper c1) hc2' h1']
        simp [uc, map_toupper_idem, toupper_idem, hd, hh, hp, h1]

/-- C30: `encode_symbol` returns a string for every input, and no access on its
way fails: the checked encoder, in which a read at a position out of range, an
iterator before the start or a `pop_back` on an empty string would give `none`,
returns the same string for every input. Past the length test the positions
`size-2` and `size-1` are in range and the string is not empty. -/
theorem encode_symbol_total (s : String) :
    encode_symbol_checked s = some (encode_symbol s)
      ∧ (¬ s.data.length < 2 →
          s.data.length - 2 < (string_toupper s).data.length
            ∧ s.data.length - 1 < (string_toupper s).data.length
            ∧ (string_toupper s).data ≠ []) := by
  constructor
  · by_cases h : s.data.length < 2
    · rw [encode_symbol_short s h]
      unfold encode_symbol_checked
      simp only [h, if_true]
    · obtain ⟨pre, c2, c1, e⟩ := list_snoc2 s.data (by omega)
      have hs : s = String.mk (pre ++ [c2, c1]) := String.ext e
      rw [hs]
      exact encode_symbol_checked_snoc2 pre c2 c1
  · intro h
    have hl : (string_toupper s).data.length = s.data.length := by
      simp [string_toupper]
    refine ⟨by omega, by omega, ?_⟩
    intro e
    rw [e] at hl
    have h0 : s.data.length = 0 := hl.symm
    omega


/-! ## Missing output locations (C21) -/

/-- C21: the function `get_fields` called on a live quotes handle with a null
count location `n` has no defined behaviour, under every header, with or without
a field buffer location and whether or not an allocation would succeed: it has
no `CHECK_PTR(n)` and executes `*n = f.size()`. The sibling accessor
`SubscriptionBySymbolBase_GetSymbols_ABI`, which has the check, returns the
null-pointer error for "n" on the same handle and leaves its outputs as they
were. -/
theorem get_fields_null_count_dereferenced :
    (∀ (H : Header) (alloc_ok : Bool) (fields : Option (Option (List Int))),
        get_fields H .QuotesSubscriptionImpl alloc_ok (some (sample_quotes_proxy H)) fields none
          = .undefined)
      ∧ (∀ alloc_ok : Bool,
          SubscriptionBySymbolBase_GetSymbols_ABI sample_header alloc_ok
              (some (sample_quotes_proxy sample_header)) (some none) none
            = .returned (some (null_pointer_error "n")) (some none, none)) := by
  constructor
  · intro H alloc_ok fields
    simp [get_fields, proxy_is_callable, sample_quotes_proxy, FieldsImplTy.cls,
      ImplClass.TYPE_ID_LOW, ImplClass.TYPE_ID_HIGH, ConcreteImplTy.TYPE_ID,
      SymbolFieldImplTy.TYPE_ID_LOW, read_as, Impl.dyn, ImplClass.has_instance,
      sample_quotes_object, Impl.fields]
  · intro alloc_ok
    cases alloc_ok <;> rfl

/-! ## The handle invariant (C22) -/

/-- The step of an accessor on the caller's memory returns exactly when the
accessor returns, with the same error and the same output locations, and hands
the proxy on as it was. -/
theorem accessor_step_eq_call (H : Header) (a : Accessor) (alloc_ok : Bool)
    (psub : Option StreamingSubscription_C) (out : a.Out) :
    a.step H alloc_ok { psub := psub, out := out }
      = match a.call H alloc_ok psub out with
        | .returned err out' => .returned err { psub := psub, out := out' }
        | .undefined => .undefined := by
  cases a with
  | GetService =>
    simp only [Accessor.step, Accessor.call, StreamingSubscription_GetService_ABI_step,
      StreamingSubscription_GetService_ABI]
    repeat' split
    all_goals first | rfl | simp_all
  | GetCommand =>
    obtain ⟨buf, n⟩ := out
    simp only [Accessor.step, Accessor.call, StreamingSubscription_GetCommand_ABI_step,
      StreamingSubscription_GetCommand_ABI]
    repeat' split
    all_goals first | rfl | simp_all
  | GetSymbols =>
    obtain ⟨buf, n⟩ := out
    simp only [Accessor.step, Accessor.call, SubscriptionBySymbolBase_GetSymbols_ABI_step,
      SubscriptionBySymbolBase_GetSymbols_ABI]
    repeat' split
    all_goals first | rfl | simp_all
  | GetFields T =>
    obtain ⟨buf, n⟩ := out
    simp only [Accessor.step, Accessor.call, get_fields_step, get_fields]
    repeat' split
    all_goals first | rfl | simp_all
  | GetDuration =>
    simp only [Accessor.step, Accessor.call, ActivesSubscriptionBase_GetDuration_ABI_step,
      ActivesSubscriptionBase_GetDuration_ABI]
    repeat' split
    all_goals first | rfl | simp_all
  | GetVenue =>
    simp only [Accessor.step, Accessor.call, OptionActivesSubscription_GetVenue_ABI_step,
      OptionActivesSubscription_GetVenue_ABI]
    repeat' split
    all_goals first | rfl | simp_all

/-- An accessor step that returns leaves the proxy as it was. -/
theorem accessor_step_psub (H : Header) (a : Accessor) (alloc_ok : Bool)
    (m m' : AccessorMemory a.Out) (err : Option Exc)
    (h : a.step H alloc_ok m = .returned err m') : m'.psub = m.psub := by
  obtain ⟨psub, out⟩ := m
  rw [accessor_step_eq_call] at h
  cases hc : a.call H alloc_ok psub out with
  | undefined =>
    rw [hc] at h
    cases h
  | returned e o =>
    rw [hc] at h
    rw [← (outcome_returned_inj h).2]

/-- A sequence of accessor calls either has no defined behaviour or leaves the
proxy as it was. -/
theorem run_calls_psub (H : Header) (calls : List AccessorCall)
    (psub : Option StreamingSubscription_C) :
    run_calls H calls psub = .undefined ∨ run_calls H calls psub = .returned none psub := by
  induction calls with
  | nil => exact Or.inr rfl
  | cons c cs ih =>
    unfold run_calls
    cases hs : c.a.step H c.alloc_ok { psub := psub, out := c.out } with
    | undefined => exact Or.inl rfl
    | returned e m =>
      have hp : m.psub = psub := accessor_step_psub H c.a c.alloc_ok _ m e hs
      simp only [hp]
      exact ih

/-- A sequence of accessor calls returns, with the proxy as it was, exactly when
each of its calls, made on that proxy, has defined behaviour. -/
theorem run_calls_returns_iff (H : Header) (calls : List AccessorCall)
    (psub : Option StreamingSubscription_C) :
    run_calls H calls psub = .returned none psub
      ↔ ∀ c ∈ calls, c.a.call H c.alloc_ok psub c.out ≠ .undefined := by
  induction calls with
  | nil => simp [run_calls]
  | cons c cs ih =>
    unfold run_calls
    rw [accessor_step_eq_call]
    cases hc : c.a.call H c.alloc_ok psub c.out with
    | undefined =>
      simp only [List.mem_cons, forall_eq_or_imp, hc, ne_eq, not_true_eq_false, false_and,
        iff_false]
      intro h
      cases h
    | returned e o =>
      simp only [List.mem_cons, forall_eq_or_imp, hc, ne_eq]
      rw [ih]
      have hne : ¬ (Outcome.returned e o = (Outcome.undefined : Outcome c.a.Out)) := by
        intro h'
        cases h'
      constructor
      · intro h
        exact And.intro hne h
      · intro h
        exact h.2

/-- C22: a successful create operation (symbol+field, fixed-venue actives or
option actives) leaves a handle whose tag is the identifier of the class the
create function was called for and whose owned object was constructed as exactly
that class, so the tag is the identifier of the object's own class. Each accessor,
taken as a step on the caller's memory (the proxy and the output locations),
returns exactly when the accessor returns, with the same error and outputs, and
every step that returns hands the proxy on with the same tag and the same object;
so a sequence of accessor calls on a handle either runs into a call without
defined behaviour or ends with the handle holding the tag and the object it had
before the first call, and it ends so exactly when each of its calls has defined
behaviour on that handle. -/
theorem handle_invariant (H : Header) :
    (∀ (T : SymbolFieldImplTy) (symbols : Option (List String)) (fields : Option (List Int))
        (psub : Option StreamingSubscription_C),
        (create_symbol_field_subscription H T symbols fields psub).err = none →
        ∃ q o, (create_symbol_field_subscription H T symbols fields psub).psub = some q
          ∧ q.obj = some o ∧ o.dyn = .symbol_field T
          ∧ q.type_id = (ConcreteImplTy.symbol_field T).TYPE_ID H
          ∧ q.type_id = o.dyn.TYPE_ID H)
      ∧ (∀ (T : FixedVenueImplTy) (D : Int) (psub : Option StreamingSubscription_C),
          (create_duration_subscription H T D psub).err = none →
          ∃ q o, (create_duration_subscription H T D psub).psub = some q
            ∧ q.obj = some o ∧ o.dyn = .actives T.toActives
            ∧ q.type_id = (ConcreteImplTy.actives T.toActives).TYPE_ID H
            ∧ q.type_id = o.dyn.TYPE_ID H)
      ∧ (∀ (V D : Int) (psub : Option StreamingSubscription_C),
          (OptionActivesSubscription_Create_ABI H V D psub).err = none →
          ∃ q o, (OptionActivesSubscription_Create_ABI H V D psub).psub = some q
            ∧ q.obj = some o ∧ o.dyn = .actives .OptionActivesSubscriptionImpl
            ∧ q.type_id = (ConcreteImplTy.actives .OptionActivesSubscriptionImpl).TYPE_ID H
            ∧ q.type_id = o.dyn.TYPE_ID H)
      ∧ (∀ (a : Accessor) (alloc_ok : Bool) (psub : Option StreamingSubscription_C)
          (out : a.Out),
          a.step H alloc_ok { psub := psub, out := out }
            = match a.call H alloc_ok psub out with
              | .returned err out' => .returned err { psub := psub, out := out' }
              | .undefined => .undefined)
      ∧ (∀ (a : Accessor) (alloc_ok : Bool) (m m' : AccessorMemory a.Out) (err : Option Exc),
          a.step H alloc_ok m = .returned err m' → m'.psub = m.psub)
      ∧ (∀ (calls : List AccessorCall) (q : StreamingSubscription_C),
          run_calls H calls (some q) = .undefined
            ∨ run_calls H calls (some q) = .returned none (some q))
      ∧ (∀ (calls : List AccessorCall) (q : StreamingSubscription_C),
          run_calls H calls (some q) = .returned none (some q)
            ↔ ∀ c ∈ calls, c.a.call H c.alloc_ok (some q) c.out ≠ .undefined) := by
  refine ⟨?_, ?_, ?_, accessor_step_eq_call H, accessor_step_psub H,
    fun calls q => run_calls_psub H calls (some q),
    fun calls q => run_calls_returns_iff H calls (some q)⟩
  · intro T symbols fields psub hok
    cases psub with
    | none => exact absurd hok (by simp [create_symbol_field_subscription])
    | some p =>
      cases symbols with
      | none => exact absurd hok (by simp [create_symbol_field_subscription, HANDLE_ERROR_EX])
      | some ss =>
        cases fields with
        | none => exact absurd hok (by simp [create_symbol_field_subscription, HANDLE_ERROR_EX])
        | some fs =>
          rw [create_ok H T ss fs p hok]
          exact ⟨_, _, rfl, rfl, rfl, rfl, rfl⟩
  · intro T D psub hok
    cases psub with
    | none => exact absurd hok (by simp [create_duration_subscription])
    | some p =>
      unfold create_duration_subscription at hok ⊢
      simp only at hok ⊢
      split_ifs at hok ⊢
      · exact absurd hok (by simp [HANDLE_ERROR_EX])
      · exact ⟨_, _, rfl, rfl, rfl, rfl, rfl⟩
  · intro V D psub hok
    cases psub with
    | none => exact absurd hok (by simp [OptionActivesSubscription_Create_ABI])
    | some p =>
      unfold OptionActivesSubscription_Create_ABI at hok ⊢
      simp only at hok ⊢
      split_ifs at hok ⊢
      · exact absurd hok (by simp [HANDLE_ERROR_EX])
      · exact absurd hok (by simp [HANDLE_ERROR_EX])
      · exact ⟨_, _, rfl, rfl, rfl, rfl, rfl⟩

/-- An accessor sequence on the live quotes handle of the sample header: a
get-service call, a get-symbols call, a get-fields call whose allocation fails and
a get-duration call, which the handle check rejects. Every call returns, and the
handle is as it was. -/
theorem handle_invariant_witness :
    run_calls sample_header
        [{ a := .GetService, alloc_ok := true, out := some 0 },
         { a := .GetSymbols, alloc_ok := true, out := (some none, some 0) },
         { a := .GetFields .QuotesSubscriptionImpl, alloc_ok := false, out := (some none, some 7) },
         { a := .GetDuration, alloc_ok := true, out := some 0 }]
        (some (sample_quotes_proxy sample_header))
      = .returned none (some (sample_quotes_proxy sample_header)) :=
  ((handle_invariant sample_header).2.2.2.2.2.1
    [{ a := .GetService, alloc_ok := true, out := some 0 },
     { a := .GetSymbols, alloc_ok := true, out := (some none, some 0) },
     { a := .GetFields .QuotesSubscriptionImpl, alloc_ok := false, out := (some none, some 7) },
     { a := .GetDuration, alloc_ok := true, out := some 0 }]
    (sample_quotes_proxy sample_header)).resolve_left (by intro h; cases h)

/-! ## Validity predicates of kinds with a common base (C23) -/

/-- The error of a symbol+field create depends on the class only through its
field predicate. -/
theorem create_err_congr (H : Header) (T T' : SymbolFieldImplTy)
    (symbols : Option (List String)) (fields : Option (List Int))
    (psub : Option StreamingSubscription_C)
    (h : ∀ c, T.is_valid_field H c = T'.is_valid_field H c) :
    (create_symbol_field_subscription H T symbols fields psub).err
      = (create_symbol_field_subscription H T' symbols fields psub).err := by
  have hf : (fun f => !T.is_valid_field H f) = (fun f => !T'.is_valid_field H f) := by
    funext f
    rw [h f]
  cases psub with
  | none => rfl
  | some p =>
    cases symbols with
    | none => rfl
    | some ss =>
      cases fields with
      | none => rfl
      | some fs =>
        unfold create_symbol_field_subscription
        simp only [hf]
        split_ifs
        · rfl
        · rfl
        · rfl
        · by_cases hs : buffers_to_set string_lt ss = []
          · rw [hs, ctor_no_symbols, ctor_no_symbols]
          · by_cases hfs : buffers_to_set int_lt fs = []
            · rw [hfs, ctor_no_fields T _ hs, ctor_no_fields T' _ hs]
            · rw [ctor_ok T _ _ hs hfs, ctor_ok T' _ _ hs hfs]

/-- C23 as stated fails: the chart-equity class has its own field predicate
(`ChartEquitySubscriptionField_is_valid`), the chart-futures and chart-options
classes have that of their base (`ChartSubscriptionField_is_valid`), so the two do
not agree under every header. Under the sample header, where the first accepts the
codes 0..8 and the second 0..6, a creation with the field code 7 succeeds for
chart-equity and is rejected for chart-futures. -/
theorem chart_equity_has_its_own_predicate :
    (¬ ∀ (H : Header) (c : Int),
        SymbolFieldImplTy.ChartEquitySubscriptionImpl.is_valid_field H c
          = SymbolFieldImplTy.ChartFuturesSubscriptionImpl.is_valid_field H c)
      ∧ (create_symbol_field_subscription sample_header .ChartEquitySubscriptionImpl
          (some ["SPY"]) (some [7]) (some blank_proxy)).err = none
      ∧ (create_symbol_field_subscription sample_header .ChartFuturesSubscriptionImpl
          (some ["SPY"]) (some [7]) (some blank_proxy)).err
          = some (.ValueException "invalid FieldType value") := by
  refine ⟨?_, by decide, by decide⟩
  intro h
  exact absurd (h sample_header 7) (by decide)

/-- C23, amended: the chart-futures and chart-options classes use one and the
same field predicate, that of their base class, and a creation with the same
arguments reports the same error for both; the chart-equity class uses a field
predicate of its own. The three timesale classes use one and the same field
predicate and report the same error on the same arguments. All four actives
classes use the one duration predicate: a fixed-venue actives creation on a
non-null handle succeeds exactly when the duration code satisfies it, and so does
an option-actives creation with a valid venue. -/
theorem shared_predicates (H : Header) :
    (∀ c, SymbolFieldImplTy.ChartFuturesSubscriptionImpl.is_valid_field H c
            = H.ChartSubscriptionField_is_valid c
        ∧ SymbolFieldImplTy.ChartOptionsSubscriptionImpl.is_valid_field H c
            = H.ChartSubscriptionField_is_valid c
        ∧ SymbolFieldImplTy.ChartEquitySubscriptionImpl.is_valid_field H c
            = H.ChartEquitySubscriptionField_is_valid c)
      ∧ (∀ symbols fields psub,
          (create_symbol_field_subscription H .ChartFuturesSubscriptionImpl symbols fields
              psub).err
            = (create_symbol_field_subscription H .ChartOptionsSubscriptionImpl symbols fields
              psub).err)
      ∧ (∀ c, SymbolFieldImplTy.TimesaleEquitySubscriptionImpl.is_valid_field H c
            = H.TimesaleSubscriptionField_is_valid c
        ∧ SymbolFieldImplTy.TimesaleFuturesSubscriptionImpl.is_valid_field H c
            = H.TimesaleSubscriptionField_is_valid c
        ∧ SymbolFieldImplTy.TimesaleOptionsSubscriptionImpl.is_valid_field H c
            = H.TimesaleSubscriptionField_is_valid c)
      ∧ (∀ symbols fields psub,
          (create_symbol_field_subscription H .TimesaleEquitySubscriptionImpl symbols fields
              psub).err
            = (create_symbol_field_subscription H .TimesaleFuturesSubscriptionImpl symbols
              fields psub).err
          ∧ (create_symbol_field_subscription H .TimesaleEquitySubscriptionImpl symbols fields
              psub).err
            = (create_symbol_field_subscription H .TimesaleOptionsSubscriptionImpl symbols
              fields psub).err)
      ∧ (∀ (T : FixedVenueImplTy) (D : Int) (p : StreamingSubscription_C),
          (create_duration_subscription H T D (some p)).err = none
            ↔ H.DurationType_is_valid D = true)
      ∧ (∀ (V D : Int) (p : StreamingSubscription_C), H.VenueType_is_valid V = true →
          ((OptionActivesSubscription_Create_ABI H V D (some p)).err = none
            ↔ H.DurationType_is_valid D = true)) := by
  refine ⟨fun c => ⟨rfl, rfl, rfl⟩, ?_, fun c => ⟨rfl, rfl, rfl⟩, ?_, ?_, ?_⟩
  · intro symbols fields psub
    exact create_err_congr H _ _ symbols fields psub (fun c => rfl)
  · intro symbols fields psub
    exact ⟨create_err_congr H _ _ symbols fields psub (fun c => rfl),
      create_err_congr H _ _ symbols fields psub (fun c => rfl)⟩
  · intro T D p
    unfold create_duration_subscription
    cases hD : H.DurationType_is_valid D <;> simp [HANDLE_ERROR_EX]
  · intro V D p hV
    unfold OptionActivesSubscription_Create_ABI
    cases hD : H.DurationType_is_valid D <;> simp [HANDLE_ERROR_EX, hV]

/-! ## The acceptance condition of symbol+field creation (C26) -/

/-- C26: with non-null symbol and field arrays and a non-null handle, a
symbol+field creation succeeds exactly when the symbol count is between 1 and
`SUBSCRIPTION_MAX_SYMBOLS`, the field count is between 1 and
`SUBSCRIPTION_MAX_FIELDS` and every field code satisfies the class's
`is_valid_field`; the error it reports is that of the first violated check in the
order symbol count above the limit, field count above the limit, invalid field
code, no symbols, no fields. -/
theorem create_acceptance (H : Header) (T : SymbolFieldImplTy) (symbols : List String)
    (fields : List Int) (p : StreamingSubscription_C) :
    ((create_symbol_field_subscription H T (some symbols) (some fields) (some p)).err = none ↔
        (1 ≤ symbols.length ∧ symbols.length ≤ H.SUBSCRIPTION_MAX_SYMBOLS)
          ∧ (1 ≤ fields.length ∧ fields.length ≤ H.SUBSCRIPTION_MAX_FIELDS)
          ∧ ∀ f ∈ fields, T.is_valid_field H f = true)
      ∧ (create_symbol_field_subscription H T (some symbols) (some fields) (some p)).err =
          if symbols.length > H.SUBSCRIPTION_MAX_SYMBOLS then
            some (.ValueException "nsymbols > SUBSCRIPTION_MAX_SYMBOLS")
          else if fields.length > H.SUBSCRIPTION_MAX_FIELDS then
            some (.ValueException "nfields > SUBSCRIPTION_MAX_FIELDS")
          else if fields.any (fun f => !T.is_valid_field H f) then
            some (.ValueException "invalid FieldType value")
          else if symbols.length = 0 then
            some (.ValueException "no symbols")
          else if fields.length = 0 then
            some (.ValueException "no fields")
          else none := by
  constructor
  · rw [create_err_none_iff]
    constructor
    · rintro ⟨h1, h2, hv, hs, hf⟩
      refine ⟨⟨?_, h1⟩, ⟨?_, h2⟩, hv⟩
      · exact Nat.succ_le_of_lt (List.length_pos.2 hs)
      · exact Nat.succ_le_of_lt (List.length_pos.2 hf)
    · rintro ⟨⟨hs, h1⟩, ⟨hf, h2⟩, hv⟩
      exact ⟨h1, h2, hv, List.length_pos.1 hs, List.length_pos.1 hf⟩
  · by_cases h1 : symbols.length > H.SUBSCRIPTION_MAX_SYMBOLS
    · simp [create_symbol_field_subscription, h1, HANDLE_ERROR_EX]
    by_cases h2 : fields.length > H.SUBSCRIPTION_MAX_FIELDS
    · simp [create_symbol_field_subscription, h1, h2, HANDLE_ERROR_EX]
    by_cases h3 : (fields.any (fun f => !T.is_valid_field H f)) = true
    · simp only [create_symbol_field_subscription, h1, h2, h3, if_true, if_false,
        HANDLE_ERROR_EX]
    have hv : ∀ f ∈ fields, T.is_valid_field H f = true := by
      intro f hf
      by_contra hc
      apply h3
      rw [List.any_eq_true]
      exact ⟨f, hf, by simpa using hc⟩
    rw [create_checked H T symbols fields p (by omega) (by omega) hv]
    simp only [h1, h2, h3, if_false]
    by_cases hs : symbols = []
    · subst hs
      have e : buffers_to_set string_lt ([] : List String) = [] := rfl
      rw [e, ctor_no_symbols]
      simp
    have hs' : buffers_to_set string_lt symbols ≠ [] :=
      mt (buffers_to_set_eq_nil string_lt_strictTotal symbols).1 hs
    have hsl : ¬ symbols.length = 0 := fun e => hs (List.length_eq_zero.1 e)
    by_cases hf : fields = []
    · subst hf
      have e : buffers_to_set int_lt ([] : List Int) = [] := rfl
      rw [e, ctor_no_fields T _ hs']
      simp [hsl]
    have hfl : ¬ fields.length = 0 := fun e => hf (List.length_eq_zero.1 e)
    rw [ctor_ok T _ _ hs' (mt (buffers_to_set_eq_nil int_lt_strictTotal fields).1 hf)]
    simp [hsl, hfl]


/-! ## The entries of "keys" and the stored symbols (C24) -/

/-- The set built from a buffer has as many elements as the buffer has distinct
entries. -/
theorem buffers_to_set_length_dedup {α : Type} [DecidableEq α] {lt : α → α → Bool}
    (hlt : StrictTotal lt) (l : List α) : (buffers_to_set lt l).length = l.dedup.length := by
  apply List.Perm.length_eq
  rw [List.perm_ext_iff_of_nodup (ascending_nodup hlt _ (buffers_to_set_ascending hlt l))
    (List.nodup_dedup l)]
  intro a
  rw [buffers_to_set_mem hlt, List.mem_dedup]

theorem fields_accessor_has_instance (T : SymbolFieldImplTy) :
    T.fields_accessor.cls.has_instance (.symbol_field T) = true := by
  cases T <;> rfl

/-- C27: on the handle a successful symbol+field creation leaves behind, the
`get_fields` instantiation that serves the class, called with a field buffer
location and a count location and with the buffer allocation succeeding, returns
no error, writes into the buffer the distinct input field codes in strictly
ascending order, each once, and into the count their number. The handle's tag has
to lie in the tag range of the class the instantiation checks against, which for
the chart futures/options and the timesale classes is the range of their base
class. -/
theorem get_fields_after_create (H : Header) (T : SymbolFieldImplTy) (symbols : List String)
    (fields : List Int) (p : StreamingSubscription_C)
    (hok : (create_symbol_field_subscription H T (some symbols) (some fields) (some p)).err
      = none)
    (hrange : T.fields_accessor.cls.TYPE_ID_LOW H ≤ T.TYPE_ID_LOW H
      ∧ T.TYPE_ID_LOW H ≤ T.fields_accessor.cls.TYPE_ID_HIGH H)
    (buf : Option (List Int)) (n : Nat) :
    ∃ q codes,
      (create_symbol_field_subscription H T (some symbols) (some fields) (some p)).psub = some q
        ∧ get_fields H T.fields_accessor true (some q) (some buf) (some n)
            = .returned none (some (some codes), some codes.length)
        ∧ List.Pairwise (fun a b : Int => a < b) codes
        ∧ (∀ c, c ∈ codes ↔ c ∈ fields)
        ∧ codes.length = fields.dedup.length := by
  rw [create_ok H T symbols fields p hok]
  refine ⟨_, buffers_to_set int_lt fields, rfl, ?_, ?_,
    buffers_to_set_mem int_lt_strictTotal fields,
    buffers_to_set_length_dedup int_lt_strictTotal fields⟩
  · have hc : ¬ (T.TYPE_ID_LOW H < T.fields_accessor.cls.TYPE_ID_LOW H
        ∨ T.fields_accessor.cls.TYPE_ID_HIGH H < T.TYPE_ID_LOW H) := by omega
    simp [get_fields, proxy_is_callable, hc, read_as, Impl.dyn, fields_accessor_has_instance,
      Impl.fields, SymbolFieldSubscriptionImpl.get_fields, alloc_to_buffer]
  · have h := buffers_to_set_ascending int_lt_strictTotal fields
    unfold Ascending at h
    refine List.Pairwise.imp ?_ h
    intro a b hab
    simpa [int_lt] using hab

/-- Witness for C27: a chart-futures creation under the sample header with the
field codes 3, 1, 3, 0; the buffer receives 0, 1, 3 and the count 3. -/
theorem get_fields_after_create_witness :
    ∃ q codes,
      (create_symbol_field_subscription sample_header .ChartFuturesSubscriptionImpl
          (some ["/es"]) (some [3, 1, 3, 0]) (some blank_proxy)).psub = some q
        ∧ get_fields sample_header
            SymbolFieldImplTy.ChartFuturesSubscriptionImpl.fields_accessor true (some q)
            (some none) (some 0)
            = .returned none (some (some codes), some codes.length)
        ∧ List.Pairwise (fun a b : Int => a < b) codes
        ∧ (∀ c, c ∈ codes ↔ c ∈ [3, 1, 3, 0])
        ∧ codes.length = [3, 1, 3, 0].dedup.length :=
  get_fields_after_create sample_header .ChartFuturesSubscriptionImpl ["/es"] [3, 1, 3, 0]
    blank_proxy (by decide) (by decide) none 0


/-! ## Command and service of the created requests (C28) -/

/-- C28: every request a create function produces has the command "SUBS" and
the service of its class; the sixteen classes, in the order of the downcast's case
labels, have the services QUOTE, OPTION, LEVELONE_FUTURES, LEVELONE_FOREX,
LEVELONE_FUTURES_OPTIONS, NEWS_HEADLINE, CHART_EQUITY, CHART_FUTURES,
CHART_OPTIONS, TIMESALE_EQUITY, TIMESALE_FUTURES, TIMESALE_OPTIONS,
ACTIVES_NASDAQ, ACTIVES_NYSE, ACTIVES_OTCBB, ACTIVES_OPTIONS, and no two classes
have the same service. On a live handle of any class the get-service accessor
writes the integer of the owned object's service, and the get-command accessor,
when its allocation succeeds, the owned object's command. -/
theorem command_and_service (H : Header) :
    (∀ (T : SymbolFieldImplTy) (symbols : Option (List String)) (fields : Option (List Int))
        (psub : Option StreamingSubscription_C),
        (create_symbol_field_subscription H T symbols fields psub).err = none →
        ∃ q o, (create_symbol_field_subscription H T symbols fields psub).psub = some q
          ∧ q.obj = some o ∧ o.base._command = "SUBS"
          ∧ o.base._service = (ConcreteImplTy.symbol_field T).service)
      ∧ (∀ (T : FixedVenueImplTy) (D : Int) (psub : Option StreamingSubscription_C),
          (create_duration_subscription H T D psub).err = none →
          ∃ q o, (create_duration_subscription H T D psub).psub = some q
            ∧ q.obj = some o ∧ o.base._command = "SUBS"
            ∧ o.base._service = (ConcreteImplTy.actives T.toActives).service)
      ∧ (∀ (V D : Int) (psub : Option StreamingSubscription_C),
          (OptionActivesSubscription_Create_ABI H V D psub).err = none →
          ∃ q o, (OptionActivesSubscription_Create_ABI H V D psub).psub = some q
            ∧ q.obj = some o ∧ o.base._command = "SUBS"
            ∧ o.base._service
                = (ConcreteImplTy.actives .OptionActivesSubscriptionImpl).service)
      ∧ switch_cases.map ConcreteImplTy.service
          = [.QUOTE, .OPTION, .LEVELONE_FUTURES, .LEVELONE_FOREX, .LEVELONE_FUTURES_OPTIONS,
             .NEWS_HEADLINE, .CHART_EQUITY, .CHART_FUTURES, .CHART_OPTIONS, .TIMESALE_EQUITY,
             .TIMESALE_FUTURES, .TIMESALE_OPTIONS, .ACTIVES_NASDAQ, .ACTIVES_NYSE,
             .ACTIVES_OTCBB, .ACTIVES_OPTIONS]
      ∧ (∀ K K' : ConcreteImplTy, K.service = K'.service → K = K')
      ∧ (∀ (q : StreamingSubscription_C) (o : Impl), q.obj = some o →
          proxy_is_callable H .StreamingSubscriptionImpl (some q) = none →
          ∀ (service : Int) (buf : Option String) (n : Nat),
            StreamingSubscription_GetService_ABI H (some q) (some service)
                = .returned none (some (H.StreamerServiceType_to_int o.base._service))
              ∧ StreamingSubscription_GetCommand_ABI H true (some q) (some buf) (some n)
                = .returned none (some (some o.base._command),
                    some (H.to_new_char_buffer_size o.base._command))) := by
  refine ⟨?_, ?_, ?_, rfl, ?_, ?_⟩
  · intro T symbols fields psub hok
    cases psub with
    | none => exact absurd hok (by simp [create_symbol_field_subscription])
    | some p =>
      cases symbols with
      | none => exact absurd hok (by simp [create_symbol_field_subscription, HANDLE_ERROR_EX])
      | some ss =>
        cases fields with
        | none => exact absurd hok (by simp [create_symbol_field_subscription, HANDLE_ERROR_EX])
        | some fs =>
          rw [create_ok H T ss fs p hok]
          exact ⟨_, _, rfl, rfl, rfl, rfl⟩
  · intro T D psub hok
    cases psub with
    | none => exact absurd hok (by simp [create_duration_subscription])
    | some p =>
      unfold create_duration_subscription at hok ⊢
      simp only at hok ⊢
      split_ifs at hok ⊢
      · exact absurd hok (by simp [HANDLE_ERROR_EX])
      · exact ⟨_, _, rfl, rfl, rfl, rfl⟩
  · intro V D psub hok
    cases psub with
    | none => exact absurd hok (by simp [OptionActivesSubscription_Create_ABI])
    | some p =>
      unfold OptionActivesSubscription_Create_ABI at hok ⊢
      simp only at hok ⊢
      split_ifs at hok ⊢
      · exact absurd hok (by simp [HANDLE_ERROR_EX])
      · exact absurd hok (by simp [HANDLE_ERROR_EX])
      · exact ⟨_, _, rfl, rfl, rfl, rfl⟩
  · intro K K' h
    cases K with
    | symbol_field T =>
      cases K' with
      | symbol_field T' =>
        cases T <;> cases T' <;> first | rfl | exact absurd h (by decide)
      | actives T' =>
        cases T <;> cases T' <;> exact absurd h (by decide)
    | actives T =>
      cases K' with
      | symbol_field T' =>
        cases T <;> cases T' <;> exact absurd h (by decide)
      | actives T' =>
        cases T <;> cases T' <;> first | rfl | exact absurd h (by decide)
  · intro q o ho hcall service buf n
    have hr : read_as .StreamingSubscriptionImpl (some q) = some o := by
      simp [read_as, ho, ImplClass.has_instance]
    constructor
    · simp only [StreamingSubscription_GetService_ABI, hcall, hr]
    · simp only [StreamingSubscription_GetCommand_ABI, hcall, hr, to_new_char_buffer, if_true]

/-! ## Created tags and the generic destroy (C29) -/

/-- The downcast of a handle that owns an object and whose tag is the identifier
of a concrete class returns the owned object. -/
theorem C_sub_ptr_to_impl_ptr_recognized (H : Header) (q : StreamingSubscription_C)
    (K : ConcreteImplTy) (hobj : q.obj ≠ none) (htag : q.type_id = K.TYPE_ID H) :
    ∃ K', C_sub_ptr_to_impl_ptr H (some q) = .ok (K', q.obj) := by
  rw [C_sub_ptr_to_impl_ptr_callable H q hobj]
  cases hf : switch_cases.find? (fun K => K.TYPE_ID H == q.type_id) with
  | some K' => exact ⟨K', rfl⟩
  | none =>
    rw [List.find?_eq_none] at hf
    exact absurd (hf K (switch_cases_complete K)) (by simp [htag])

/-- The generic destroy of a handle that owns an object, has the identifier of a
concrete class as its tag and passes the handle check of the root class. -/
theorem destroy_recognized (H : Header) (q : StreamingSubscription_C) (K : ConcreteImplTy)
    (hobj : q.obj ≠ none) (htag : q.type_id = K.TYPE_ID H)
    (hroot : H.StreamingSubscriptionImpl_TYPE_ID_LOW ≤ K.TYPE_ID H
      ∧ K.TYPE_ID H ≤ H.StreamingSubscriptionImpl_TYPE_ID_HIGH) :
    StreamingSubscription_Destroy_ABI H (some q)
      = { err := none, psub := some (kill_proxy q), deleted := q.obj } := by
  have hc : proxy_is_callable H .StreamingSubscriptionImpl (some q) = none := by
    have hr : ¬ (q.type_id < H.StreamingSubscriptionImpl_TYPE_ID_LOW
        ∨ H.StreamingSubscriptionImpl_TYPE_ID_HIGH < q.type_id) := by
      rw [htag]
      omega
    cases ho : q.obj with
    | none => exact absurd ho hobj
    | some o =>
      simp [proxy_is_callable, ImplClass.TYPE_ID_LOW, ImplClass.TYPE_ID_HIGH, hr, ho]
  obtain ⟨K', hK'⟩ := C_sub_ptr_to_impl_ptr_recognized H q K hobj htag
  simp only [StreamingSubscription_Destroy_ABI, hc, hK', Option.map_some']

/-- C29: under a header whose root class range spans the identifiers of the
sixteen case labels, every successful create operation leaves a handle whose tag
is the identifier of one of the case labels of `C_sub_ptr_to_impl_ptr`; the
downcast of that handle returns the owned object and does not throw, and the
generic destroy of it returns no error, deletes the owned object and leaves the
killed proxy, which is inert. -/
theorem created_tag_recognized (H : Header)
    (hroot : ∀ K ∈ switch_cases, H.StreamingSubscriptionImpl_TYPE_ID_LOW ≤ K.TYPE_ID H
      ∧ K.TYPE_ID H ≤ H.StreamingSubscriptionImpl_TYPE_ID_HIGH)
    (r : AbiResult)
    (hr : (∃ T symbols fields psub, r = create_symbol_field_subscription H T symbols fields psub)
      ∨ (∃ T D psub, r = create_duration_subscription H T D psub)
      ∨ (∃ V D psub, r = OptionActivesSubscription_Create_ABI H V D psub))
    (hok : r.err = none) :
    ∃ q K o, r.psub = some q ∧ q.obj = some o ∧ K ∈ switch_cases ∧ q.type_id = K.TYPE_ID H
      ∧ (∃ K', C_sub_ptr_to_impl_ptr H (some q) = .ok (K', some o))
      ∧ StreamingSubscription_Destroy_ABI H (some q)
          = { err := none, psub := some (kill_proxy q), deleted := some o }
      ∧ Inert H (kill_proxy q) := by
  have key : ∀ (q : StreamingSubscription_C) (K : ConcreteImplTy) (o : Impl),
      r.psub = some q → q.obj = some o → q.type_id = K.TYPE_ID H →
      ∃ q K o, r.psub = some q ∧ q.obj = some o ∧ K ∈ switch_cases ∧ q.type_id = K.TYPE_ID H
        ∧ (∃ K', C_sub_ptr_to_impl_ptr H (some q) = .ok (K', some o))
        ∧ StreamingSubscription_Destroy_ABI H (some q)
            = { err := none, psub := some (kill_proxy q), deleted := some o }
        ∧ Inert H (kill_proxy q) := by
    intro q K o hq ho htag
    have hobj : q.obj ≠ none := by simp [ho]
    refine ⟨q, K, o, hq, ho, switch_cases_complete K, htag, ?_, ?_, inert_of_no_obj H _ rfl⟩
    · have := C_sub_ptr_to_impl_ptr_recognized H q K hobj htag
      rwa [ho] at this
    · have := destroy_recognized H q K hobj htag (hroot K (switch_cases_complete K))
      rwa [ho] at this
  rcases hr with ⟨T, symbols, fields, psub, e⟩ | ⟨T, D, psub, e⟩ | ⟨V, D, psub, e⟩
  · subst e
    cases psub with
    | none => exact absurd hok (by simp [create_symbol_field_subscription])
    | some p =>
      cases symbols with
      | none => exact absurd hok (by simp [create_symbol_field_subscription, HANDLE_ERROR_EX])
      | some ss =>
        cases fields with
        | none => exact absurd hok (by simp [create_symbol_field_subscription, HANDLE_ERROR_EX])
        | some fs =>
          exact key _ (.symbol_field T) _ (by rw [create_ok H T ss fs p hok]) rfl rfl
  · subst e
    cases psub with
    | none => exact absurd hok (by simp [create_duration_subscription])
    | some p =>
      by_cases hD : H.DurationType_is_valid D = true
      · have e : (create_duration_subscription H T D (some p)).psub
            = some { obj := some (.actives (T.ctor H D)),
                     type_id := T.toActives.TYPE_ID_LOW H } := by
          simp only [create_duration_subscription, hD, Bool.not_true, Bool.false_eq_true,
            if_false]
        exact key _ (.actives T.toActives) _ e rfl rfl
      · exact absurd hok (by simp [create_duration_subscription, hD, HANDLE_ERROR_EX])
  · subst e
    cases psub with
    | none => exact absurd hok (by simp [OptionActivesSubscription_Create_ABI])
    | some p =>
      by_cases hV : H.VenueType_is_valid V = true
      · by_cases hD : H.DurationType_is_valid D = true
        · have e : (OptionActivesSubscription_Create_ABI H V D (some p)).psub
              = some { obj := some (.actives (OptionActivesSubscriptionImpl_ctor H V D)),
                       type_id :=
                         ActivesImplTy.OptionActivesSubscriptionImpl.TYPE_ID_LOW H } := by
            simp only [OptionActivesSubscription_Create_ABI, hV, hD, Bool.not_true,
              Bool.false_eq_true, if_false]
          exact key _ (.actives .OptionActivesSubscriptionImpl) _ e rfl rfl
        · exact absurd hok
            (by simp [OptionActivesSubscription_Create_ABI, hV, hD, HANDLE_ERROR_EX])
      · exact absurd hok (by simp [OptionActivesSubscription_Create_ABI, hV, HANDLE_ERROR_EX])

/-- Witness for C29: an option-actives creation under the sample header, whose
root class range 1..18 spans the sixteen identifiers. -/
theorem created_tag_recognized_witness :
    ∃ q K o,
      (OptionActivesSubscription_Create_ABI sample_header 1 2 (some blank_proxy)).psub = some q
        ∧ q.obj = some o ∧ K ∈ switch_cases ∧ q.type_id = K.TYPE_ID sample_header
        ∧ (∃ K', C_sub_ptr_to_impl_ptr sample_header (some q) = .ok (K', some o))
        ∧ StreamingSubscription_Destroy_ABI sample_header (some q)
            = { err := none, psub := some (kill_proxy q), deleted := some o }
        ∧ Inert sample_header (kill_proxy q) :=
  created_tag_recognized sample_header (by decide)
    (OptionActivesSubscription_Create_ABI sample_header 1 2 (some blank_proxy))
    (Or.inr (Or.inr ⟨1, 2, some blank_proxy, rfl⟩)) (by decide)


/-! ## The stored symbols (C7) -/

end tdma
